import Mathlib

/-!
# Feed state coordinator of the news client

A shallow embedding of `client-side/contexts/news-context.jsx` (the `NewsProvider`
state, its derived `filteredArticles` view, its asynchronous handlers and its
two effects), of the parts of `client-side/lib/api.js` those handlers go
through, of the branches of `client-side/components/news-feed.jsx`, of the
handlers and texts of `client-side/components/news-card.jsx`, and of the topic
counts of `client-side/components/sidebar.jsx`.

Conventions of the embedding.

* JavaScript strings are `String`; `s.includes(t)` is substring search and is
  written out below (`includes`). `String.prototype.toLowerCase` belongs to the
  JavaScript platform, not to the repository: every definition that lower-cases
  takes it as the argument `toLowerCase`, and the theorems hold for every such
  function.
* A field that may be `undefined`/`null` is an `Option`; JavaScript truthiness
  of such a field is `truthy`. The other fields have the type the backend JSON
  gives them: strings, and natural numbers for the two counters. The counters
  are taken in the range where JavaScript numbers add exactly (below 2^53), so
  `count + 1` is the successor.
* An `async` handler is split at its `await`: `fooStart` is the synchronous
  part up to the request (new state and the call made on `apiClient`),
  `fooResolve` is the continuation run with the outcome of the request, and
  `foo` is the whole handler run against a given outcome. The queued
  `setArticles(prev => ...)` updates are applied to the state in program order.
  A handler closes over the state of the render that created it; the model runs
  a handler on the committed state, so its closure `articles` is `st.articles`.
-/

namespace News

/-! ## Data model -/

/-- The `source` object of an article. -/
structure Source where
  name : String
  favicon : String
  color : String
deriving DecidableEq, Repr

/-- An article as held by the provider (the object built in `fetchArticles`). -/
structure Article where
  id : String
  title : String
  source : Source
  originalExcerpt : String
  summary : Option String
  publishedAt : String
  topic : String
  url : String
  imageUrl : Option String
  viewCount : Nat
  likeCount : Nat
  isLoadingSummary : Bool
deriving DecidableEq, Repr

/-- An article as sent by the backend (snake_case JSON). -/
structure BackendArticle where
  id : String
  title : String
  source : Source
  original_excerpt : String
  summary : Option String
  published_at : String
  topic : String
  url : String
  image_url : Option String
  view_count : Nat
  like_count : Nat
deriving DecidableEq, Repr

/-- The `useState` cells of `NewsProvider`. -/
structure NewsState where
  articles : List Article
  loading : Bool
  error : Option String
  selectedRegion : String
  selectedTopic : String
  selectedSource : String
  searchQuery : String
  dateRange : String
deriving DecidableEq, Repr

/-- The initial values of the `useState` cells. -/
def initialState : NewsState :=
  { articles := [], loading := false, error := none, selectedRegion := "Global",
    selectedTopic := "All", selectedSource := "All", searchQuery := "",
    dateRange := "Today" }

/-! ## JavaScript string helpers -/

/-- Substring search on character lists: does `needle` occur in the list? -/
def includesChars : List Char → List Char → Bool
  | [], needle => needle.isEmpty
  | c :: cs, needle => needle.isPrefixOf (c :: cs) || includesChars cs needle

/-- The method call `haystack.includes(needle)`. -/
def includes (haystack needle : String) : Bool :=
  includesChars haystack.data needle.data

/-- JavaScript truthiness of a string: every string but the empty one. -/
def truthyString (s : String) : Bool := !(s == "")

/-- JavaScript truthiness of an optional string (`undefined`/`null` or a string). -/
def truthy : Option String → Bool
  | none => false
  | some s => truthyString s

/-! ## The derived view `filteredArticles` -/

/-- The constant `matchesSearch` of the filter callback. -/
def matchesSearch (toLowerCase : String → String) (searchQuery : String)
    (article : Article) : Bool :=
  !truthyString searchQuery ||
    includes (toLowerCase article.title) (toLowerCase searchQuery) ||
    includes (toLowerCase article.originalExcerpt) (toLowerCase searchQuery)

/-- The constant `matchesTopic` of the filter callback. -/
def matchesTopic (selectedTopic : String) (article : Article) : Bool :=
  selectedTopic == "All" || article.topic == selectedTopic

/-- The constant `matchesSource` of the filter callback. -/
def matchesSource (selectedSource : String) (article : Article) : Bool :=
  selectedSource == "All" || article.source.name == selectedSource

/-- The derived list `filteredArticles` of the provider. -/
def filteredArticles (toLowerCase : String → String) (st : NewsState) : List Article :=
  st.articles.filter fun article =>
    matchesSearch toLowerCase st.searchQuery article &&
      matchesTopic st.selectedTopic article &&
      matchesSource st.selectedSource article

/-! ## The API client (`lib/api.js`) -/

/-- What `fetch(url, config)` followed by `response.json()` produces: `fetch`
rejects, or it resolves to a response with its `ok` flag, its `status` and the
outcome of parsing its body. -/
inductive FetchResult (β : Type) where
  | networkError (message : String)
  | response (ok : Bool) (status : Nat) (json : Except String β)

/-- The method `ApiClient.request`: a rejected `fetch` and a body that fails to
parse are rethrown by the `catch`, a response that is not `ok` throws
`HTTP error! status: <status>`, otherwise the parsed body is returned. -/
def ApiClient.request {β : Type} : FetchResult β → Except String β
  | .networkError message => .error message
  | .response ok status json =>
    if !ok then .error ("HTTP error! status: " ++ toString status) else json

/-- A value of a `filters` object: a string, a number, a boolean, `undefined` or
`null`. The object literal built in `fetchArticles` uses the first two and
`undefined`. -/
inductive FilterValue where
  | str (s : String)
  | num (n : Nat)
  | undefined
  | bool (b : Bool)
  | null
deriving DecidableEq, Repr

/-- The calls the provider makes on `apiClient`. -/
inductive ApiCall where
  | getArticles (filters : List (String × FilterValue))
  | generateSummary (title content : String)
  | trackView (articleId : String)
  | toggleLike (articleId : String)
deriving DecidableEq, Repr

/-- The JSON answer of the summarize endpoint; `summary` is what
`response.summary` evaluates to. -/
structure SummaryResponse where
  summary : Option String
deriving DecidableEq, Repr

/-- A finished run of an `async` handler: the state once its updates are
applied, the calls it made on `apiClient` in order, and whether its promise
resolved (`ok`) or rejected (`error`). -/
structure Run where
  state : NewsState
  calls : List ApiCall
  result : Except String Unit

/-! ## `fetchArticles` -/

/-- The object literal `filters` of `fetchArticles`, in key order. -/
def fetchFilters (st : NewsState) : List (String × FilterValue) :=
  [("region", .str st.selectedRegion),
   ("topic", if st.selectedTopic != "All" then .str st.selectedTopic else .undefined),
   ("source", if st.selectedSource != "All" then .str st.selectedSource else .undefined),
   ("date_range", .str st.dateRange),
   ("search_query", if truthyString st.searchQuery then .str st.searchQuery else .undefined),
   ("limit", .num 20),
   ("page", .num 1)]

/-- The callback of `fetchedArticles.map(...)`: backend format to frontend format. -/
def transformArticle (article : BackendArticle) : Article :=
  { id := article.id
    title := article.title
    source :=
      { name := article.source.name
        favicon := article.source.favicon
        color := article.source.color }
    originalExcerpt := article.original_excerpt
    summary := article.summary
    publishedAt := article.published_at
    topic := article.topic
    url := article.url
    imageUrl := article.image_url
    viewCount := article.view_count
    likeCount := article.like_count
    isLoadingSummary := false }

/-- The text passed to `setError` by the `catch` of `fetchArticles`. -/
def fetchErrorMessage : String := "Failed to load articles. Please try again."

/-- The part of `fetchArticles` before the `await`: `setLoading(true)`,
`setError(null)` and the call `apiClient.getArticles(filters)`. -/
def fetchArticlesStart (st : NewsState) : NewsState × ApiCall :=
  ({ st with loading := true, error := none }, .getArticles (fetchFilters st))

/-- The part of `fetchArticles` after the `await`: on a value the transformed
list is stored, on an exception the `catch` stores the error text; `finally`
runs `setLoading(false)` in both cases and nothing is rethrown. -/
def fetchArticlesResolve (outcome : Except String (List BackendArticle))
    (st : NewsState) : NewsState × Except String Unit :=
  match outcome with
  | .ok fetchedArticles =>
    ({ st with articles := fetchedArticles.map transformArticle, loading := false }, .ok ())
  | .error _ =>
    ({ st with error := some fetchErrorMessage, loading := false }, .ok ())

/-- The handler `fetchArticles` run against the result of its request. -/
def fetchArticles (http : FetchResult (List BackendArticle)) (st : NewsState) : Run :=
  let started := fetchArticlesStart st
  let resolved := fetchArticlesResolve (ApiClient.request http) started.1
  { state := resolved.1, calls := [started.2], result := resolved.2 }

/-! ## `generateSummary` and `toggleSummaryView` -/

/-- The first updater of `generateSummary`: mark the articles of that id loading. -/
def markLoading (articleId : String) (prev : List Article) : List Article :=
  prev.map fun article =>
    if article.id == articleId then { article with isLoadingSummary := true } else article

/-- The updater run on success: store the summary and clear the flag. -/
def storeSummary (articleId : String) (summary : Option String) (prev : List Article) :
    List Article :=
  prev.map fun a =>
    if a.id == articleId then { a with summary := summary, isLoadingSummary := false } else a

/-- The updater run by the `catch`: clear the flag. -/
def clearLoading (articleId : String) (prev : List Article) : List Article :=
  prev.map fun a =>
    if a.id == articleId then { a with isLoadingSummary := false } else a

/-- The part of `generateSummary` before the `await`: the loading flag is set,
then `articles.find` looks the article up; without one the handler returns,
with one it calls `apiClient.generateSummary(article.title, article.originalExcerpt)`. -/
def generateSummaryStart (articleId : String) (st : NewsState) : NewsState × Option ApiCall :=
  let st1 := { st with articles := markLoading articleId st.articles }
  match st.articles.find? (fun a => a.id == articleId) with
  | none => (st1, none)
  | some article => (st1, some (.generateSummary article.title article.originalExcerpt))

/-- The part of `generateSummary` after the `await`: on a value the summary is
stored, on an exception the `catch` clears the flag; nothing is rethrown. -/
def generateSummaryResolve (articleId : String) (outcome : Except String SummaryResponse)
    (st : NewsState) : NewsState × Except String Unit :=
  match outcome with
  | .ok response =>
    ({ st with articles := storeSummary articleId response.summary st.articles }, .ok ())
  | .error _ =>
    ({ st with articles := clearLoading articleId st.articles }, .ok ())

/-- The handler `generateSummary` run against the result of its request. -/
def generateSummary (articleId : String) (http : FetchResult SummaryResponse)
    (st : NewsState) : Run :=
  match generateSummaryStart articleId st with
  | (st1, none) => { state := st1, calls := [], result := .ok () }
  | (st1, some call) =>
    let resolved := generateSummaryResolve articleId (ApiClient.request http) st1
    { state := resolved.1, calls := [call], result := resolved.2 }

/-- The handler `toggleSummaryView`: it starts `generateSummary` (without
awaiting it) when the article is found, has a falsy `summary` and is not
loading, and does nothing otherwise. The result is the state when the handler
returns and the request then in flight, if any. -/
def toggleSummaryView (articleId : String) (st : NewsState) : NewsState × Option ApiCall :=
  match st.articles.find? (fun a => a.id == articleId) with
  | none => (st, none)
  | some article =>
    if !truthy article.summary && !article.isLoadingSummary then
      generateSummaryStart articleId st
    else (st, none)

/-! ## `trackView` and `toggleLike` -/

/-- The updater of `trackView`. -/
def incrementViews (articleId : String) (prev : List Article) : List Article :=
  prev.map fun a => if a.id == articleId then { a with viewCount := a.viewCount + 1 } else a

/-- The updater of `toggleLike`. -/
def incrementLikes (articleId : String) (prev : List Article) : List Article :=
  prev.map fun a => if a.id == articleId then { a with likeCount := a.likeCount + 1 } else a

/-- The part of `trackView` before the `await`. -/
def trackViewStart (articleId : String) (st : NewsState) : NewsState × ApiCall :=
  (st, .trackView articleId)

/-- The part of `trackView` after the `await`: the update sits inside the `try`,
after the request, so it runs on a value only; the `catch` logs. -/
def trackViewResolve (articleId : String) (outcome : Except String Unit)
    (st : NewsState) : NewsState × Except String Unit :=
  match outcome with
  | .ok _ => ({ st with articles := incrementViews articleId st.articles }, .ok ())
  | .error _ => (st, .ok ())

/-- The handler `trackView` run against the result of its request. -/
def trackView (articleId : String) (http : FetchResult Unit) (st : NewsState) : Run :=
  let started := trackViewStart articleId st
  let resolved := trackViewResolve articleId (ApiClient.request http) started.1
  { state := resolved.1, calls := [started.2], result := resolved.2 }

/-- The part of `toggleLike` before the `await`. -/
def toggleLikeStart (articleId : String) (st : NewsState) : NewsState × ApiCall :=
  (st, .toggleLike articleId)

/-- The part of `toggleLike` after the `await`: as for `trackViewResolve`. -/
def toggleLikeResolve (articleId : String) (outcome : Except String Unit)
    (st : NewsState) : NewsState × Except String Unit :=
  match outcome with
  | .ok _ => ({ st with articles := incrementLikes articleId st.articles }, .ok ())
  | .error _ => (st, .ok ())

/-- The handler `toggleLike` run against the result of its request. -/
def toggleLike (articleId : String) (http : FetchResult Unit) (st : NewsState) : Run :=
  let started := toggleLikeStart articleId st
  let resolved := toggleLikeResolve articleId (ApiClient.request http) started.1
  { state := resolved.1, calls := [started.2], result := resolved.2 }

/-! ## The provider as a transition system -/

/-- The events that change the provider state: the filter setters, and for each
handler its synchronous part and the completion of its request. -/
inductive Op where
  | setSelectedRegion (value : String)
  | setSelectedTopic (value : String)
  | setSelectedSource (value : String)
  | setSearchQuery (value : String)
  | setDateRange (value : String)
  | fetchArticlesStart
  | fetchArticlesResolve (outcome : Except String (List BackendArticle))
  | generateSummaryStart (articleId : String)
  | generateSummaryResolve (articleId : String) (outcome : Except String SummaryResponse)
  | toggleSummaryView (articleId : String)
  | trackViewResolve (articleId : String) (outcome : Except String Unit)
  | toggleLikeResolve (articleId : String) (outcome : Except String Unit)

/-- The state after an event. -/
def step (op : Op) (st : NewsState) : NewsState :=
  match op with
  | .setSelectedRegion value => { st with selectedRegion := value }
  | .setSelectedTopic value => { st with selectedTopic := value }
  | .setSelectedSource value => { st with selectedSource := value }
  | .setSearchQuery value => { st with searchQuery := value }
  | .setDateRange value => { st with dateRange := value }
  | .fetchArticlesStart => (fetchArticlesStart st).1
  | .fetchArticlesResolve outcome => (fetchArticlesResolve outcome st).1
  | .generateSummaryStart articleId => (generateSummaryStart articleId st).1
  | .generateSummaryResolve articleId outcome => (generateSummaryResolve articleId outcome st).1
  | .toggleSummaryView articleId => (toggleSummaryView articleId st).1
  | .trackViewResolve articleId outcome => (trackViewResolve articleId outcome st).1
  | .toggleLikeResolve articleId outcome => (toggleLikeResolve articleId outcome st).1

/-- The states the provider can be in: the initial one and those an event
leads to from a reachable one. -/
inductive Reachable : NewsState → Prop where
  | init : Reachable initialState
  | step (op : Op) (st : NewsState) : Reachable st → Reachable (step op st)

/-- Does some article of the list with this id carry a (truthy) summary? -/
def idHasSummary (articles : List Article) (articleId : String) : Bool :=
  articles.any fun a => a.id == articleId && truthy a.summary

/-! ## Sample data -/

/-- A sample article without a summary. -/
def sampleArticle : Article :=
  { id := "a1", title := "Chip makers rally", source := ⟨"Reuters", "R", "bg-blue-500"⟩,
    originalExcerpt := "Shares rose on Monday.", summary := none,
    publishedAt := "2024-05-01T09:00:00Z", topic := "Technology",
    url := "https://example.org/a1", imageUrl := none, viewCount := 3, likeCount := 1,
    isLoadingSummary := false }

/-- A second sample article, of another id, with a summary. -/
def sampleArticle2 : Article :=
  { id := "a2", title := "Cup final tonight", source := ⟨"BBC", "B", "bg-red-500"⟩,
    originalExcerpt := "The final kicks off at eight.", summary := some "Final at eight.",
    publishedAt := "2024-05-01T10:00:00Z", topic := "Sports",
    url := "https://example.org/a2", imageUrl := none, viewCount := 7, likeCount := 2,
    isLoadingSummary := false }

/-- The backend form of `sampleArticle`. -/
def sampleBackendArticle : BackendArticle :=
  { id := "a1", title := "Chip makers rally", source := ⟨"Reuters", "R", "bg-blue-500"⟩,
    original_excerpt := "Shares rose on Monday.", summary := none,
    published_at := "2024-05-01T09:00:00Z", topic := "Technology",
    url := "https://example.org/a1", image_url := none, view_count := 3, like_count := 1 }

/-- A provider state holding the two sample articles. -/
def sampleState : NewsState :=
  { initialState with articles := [sampleArticle, sampleArticle2] }

/-- The events that keep every summary in place: all but a successful fetch
(the collection is replaced by the response) and a successful summarize request
whose answer carries no text. -/
def Op.keepsSummaries : Op → Bool
  | .fetchArticlesResolve (.ok _) => false
  | .generateSummaryResolve _ (.ok response) => truthy response.summary
  | _ => true

/-- The state after a first load of `sampleBackendArticle`, a click on its
summary button and the arrival of the summary. -/
def summarisedState : NewsState :=
  step (.generateSummaryResolve "a1" (.ok ⟨some "Chips up."⟩))
    (step (.toggleSummaryView "a1")
      (step (.fetchArticlesResolve (.ok [sampleBackendArticle]))
        (step .fetchArticlesStart initialState)))

/-! ## The requests built by the API client (`lib/api.js`) -/

/-- The object handed to `JSON.stringify` for a request body, as its entries. -/
structure JsonBody where
  fields : List (String × String)
deriving DecidableEq, Repr

/-- The `options` argument of `ApiClient.request`; `none` stands for a key the
object does not have. The `config` object handed to `fetch` has the same keys. -/
structure RequestOptions where
  method : Option String
  body : Option JsonBody
  headers : Option (List (String × String))
deriving DecidableEq, Repr

/-- What a method of `ApiClient` passes to `this.request`. -/
structure RequestArgs where
  endpoint : String
  options : RequestOptions
deriving DecidableEq, Repr

/-- The test `value !== null && value !== undefined && value !== ""` of
`getArticles`. -/
def FilterValue.kept : FilterValue → Bool
  | .str s => s != ""
  | .num _ => true
  | .undefined => false
  | .bool _ => true
  | .null => false

/-- The string `params.append(key, value)` stores for a value. -/
def FilterValue.toParam : FilterValue → String
  | .str s => s
  | .num n => toString n
  | .undefined => "undefined"
  | .bool b => if b then "true" else "false"
  | .null => "null"

/-- The entries of `params` after the `forEach` of `getArticles`. -/
def ApiClient.queryParams (filters : List (String × FilterValue)) : List (String × String) :=
  (filters.filter fun entry => entry.2.kept).map fun entry => (entry.1, entry.2.toParam)

/-- The method `getArticles`, up to its call of `this.request(endpoint)`.
`serialize` is `URLSearchParams.prototype.toString`, which belongs to the
platform. -/
def ApiClient.getArticles (serialize : List (String × String) → String)
    (filters : List (String × FilterValue)) : RequestArgs :=
  let queryString := serialize (ApiClient.queryParams filters)
  { endpoint := "/api/news/articles" ++
      (if truthyString queryString then "?" ++ queryString else "")
    options := { method := none, body := none, headers := none } }

/-- The method `generateSummary` of `ApiClient`. -/
def ApiClient.generateSummary (title content : String) : RequestArgs :=
  { endpoint := "/api/ai/summarize"
    options :=
      { method := some "POST"
        body := some ⟨[("title", title), ("content", content)]⟩
        headers := none } }

/-- The method `trackView` of `ApiClient`. -/
def ApiClient.trackView (articleId : String) : RequestArgs :=
  { endpoint := "/api/news/articles/" ++ articleId ++ "/view"
    options := { method := some "POST", body := none, headers := none } }

/-- The method `toggleLike` of `ApiClient`. -/
def ApiClient.toggleLike (articleId : String) : RequestArgs :=
  { endpoint := "/api/news/articles/" ++ articleId ++ "/like"
    options := { method := some "POST", body := none, headers := none } }

/-- The arguments of `this.request` for each call the provider makes. -/
def ApiClient.requestArgs (serialize : List (String × String) → String) :
    ApiCall → RequestArgs
  | .getArticles filters => ApiClient.getArticles serialize filters
  | .generateSummary title content => ApiClient.generateSummary title content
  | .trackView articleId => ApiClient.trackView articleId
  | .toggleLike articleId => ApiClient.toggleLike articleId

/-- The HTTP method `fetch` uses for a `config`: the `method` key, or `GET`
when the key is missing. -/
def RequestOptions.httpMethod (config : RequestOptions) : String :=
  config.method.getD "GET"

/-! ## Fields no handler writes -/

/-- The fields of an article other than `summary`, `isLoadingSummary`,
`viewCount` and `likeCount`. -/
def Article.frame (a : Article) :
    String × String × Source × String × String × String × String × Option String :=
  (a.id, a.title, a.source, a.originalExcerpt, a.publishedAt, a.topic, a.url, a.imageUrl)

/-- A lower-casing function for sample inputs: ASCII letters only. -/
def asciiLower (s : String) : String := ⟨s.data.map Char.toLower⟩

/-! ## The feed component (`components/news-feed.jsx`) -/

/-- What `NewsFeed` returns: which of its four branches, with the texts and
handlers that depend on the state (styling left out). -/
inductive FeedView where
  | loading (heading : String)
  | error (heading message button : String) (onClick : NewsState → NewsState × ApiCall)
  | empty (heading message : String)
  | feed (heading : String) (count : Nat) (cards : List Article)

/-- The heading of the article grid. -/
def feedHeading (selectedTopic : String) : String :=
  if selectedTopic == "All" then "🌟 Latest News"
  else
    (if selectedTopic == "Technology" then "💻"
      else if selectedTopic == "World" then "🌍"
      else if selectedTopic == "Business" then "💼"
      else if selectedTopic == "Science" then "🔬"
      else if selectedTopic == "Sports" then "⚽"
      else if selectedTopic == "Entertainment" then "🎬"
      else "🏛️") ++ " " ++ selectedTopic ++ " News"

/-- The component `NewsFeed` on the context value of the provider state;
`refetchArticles` is `fetchArticles`, whose synchronous part is
`fetchArticlesStart`. -/
def NewsFeed (toLowerCase : String → String) (st : NewsState) : FeedView :=
  if st.loading then .loading "Loading Amazing News..."
  else if truthy st.error then
    .error "Oops! Something went wrong" (st.error.getD "") "Try Again" fetchArticlesStart
  else if (filteredArticles toLowerCase st).length == 0 then
    .empty "No articles found"
      (if truthyString st.searchQuery then
        "🔍 No articles match your search for \"" ++ st.searchQuery ++ "\""
      else "📰 No articles available for the selected filters")
  else
    .feed (feedHeading st.selectedTopic) (filteredArticles toLowerCase st).length
      (filteredArticles toLowerCase st)

/-! ## The effects of the provider: timers and requests in flight

The provider together with what its two `useEffect` hooks leave in the
JavaScript runtime. Time is counted in milliseconds since the mount. An event is
a call of a filter setter (followed by the render and the effects whose
dependencies changed), the passing of time, or the arrival of the response to a
`getArticles` request. -/

/-- The delay passed to `setTimeout` by the search effect. -/
def debounceMs : Nat := 500

/-- A pending timeout of the search effect: the id `setTimeout` returned, the
time it is due, and the state of the render whose `searchQuery` and
`fetchArticles` its callback closes over. -/
structure Timer where
  id : Nat
  due : Nat
  closure : NewsState
deriving DecidableEq, Repr

/-- Which effect called `fetchArticles`. -/
inductive Trigger where
  | filterEffect
  | searchEffect
deriving DecidableEq, Repr

/-- A call made on `apiClient` by an effect. -/
structure Issued where
  trigger : Trigger
  call : ApiCall
deriving DecidableEq, Repr

/-- The provider and the runtime: the state cells, the clock, the pending
timeouts in the order they were set, the next id `setTimeout` returns, the
`timeoutId` held by the cleanup of the last run of the search effect, the
`getArticles` requests awaiting their response numbered in order of issue, and
the next request number. -/
structure Provider where
  st : NewsState
  now : Nat
  timers : List Timer
  nextTimeoutId : Nat
  timeoutId : Option Nat
  inFlight : List (Nat × ApiCall)
  nextRequestId : Nat
deriving DecidableEq, Repr

/-- A call of the `fetchArticles` of the render `closure`, up to its `await`:
`setLoading(true)` and `setError(null)` act on the current state, the filters
are those of the closure, and the request is now in flight. -/
def Provider.callFetchArticles (closure : NewsState) (p : Provider) : Provider × ApiCall :=
  ({ p with
      st := (fetchArticlesStart p.st).1
      inFlight := p.inFlight ++ [(p.nextRequestId, (fetchArticlesStart closure).2)]
      nextRequestId := p.nextRequestId + 1 },
    (fetchArticlesStart closure).2)

/-- The effect with dependencies `[selectedRegion, selectedTopic, selectedSource,
dateRange]`, run for the render `render`. -/
def Provider.filterEffect (render : NewsState) (p : Provider) : Provider × List Issued :=
  ((p.callFetchArticles render).1, [⟨.filterEffect, (p.callFetchArticles render).2⟩])

/-- The runtime function `clearTimeout`. -/
def clearTimeout (timeoutId : Nat) (timers : List Timer) : List Timer :=
  timers.filter fun t => t.id != timeoutId

/-- The cleanup returned by the previous run of the search effect:
`clearTimeout(timeoutId)`. -/
def Provider.searchCleanup (p : Provider) : Provider :=
  match p.timeoutId with
  | none => p
  | some timeoutId => { p with timers := clearTimeout timeoutId p.timers }

/-- The effect with dependencies `[searchQuery]`, run for the render `render`:
`setTimeout(callback, 500)`, whose id the new cleanup holds. -/
def Provider.searchEffect (render : NewsState) (p : Provider) : Provider :=
  { p with
    timers := p.timers ++ [⟨p.nextTimeoutId, p.now + debounceMs, render⟩]
    nextTimeoutId := p.nextTimeoutId + 1
    timeoutId := some p.nextTimeoutId }

/-- The render that follows a change of the state cells from `old` to `p.st`:
the cleanups of the effects whose dependencies changed, then those effects in
the order of the source. -/
def Provider.render (old : NewsState) (p : Provider) : Provider × List Issued :=
  let filterDeps := p.st.selectedRegion != old.selectedRegion ||
    p.st.selectedTopic != old.selectedTopic ||
    p.st.selectedSource != old.selectedSource ||
    p.st.dateRange != old.dateRange
  let searchDeps := p.st.searchQuery != old.searchQuery
  let cleaned := if searchDeps then p.searchCleanup else p
  let fetched := if filterDeps then cleaned.filterEffect p.st else (cleaned, [])
  (if searchDeps then fetched.1.searchEffect p.st else fetched.1, fetched.2)

/-- A setter call that makes the state cells `new`, and the render after it. -/
def Provider.setState (new : NewsState) (p : Provider) : Provider × List Issued :=
  Provider.render p.st { p with st := new }

/-- The callback of the search effect's timeout:
`if (searchQuery !== "") fetchArticles()`, on the values of its render. -/
def Provider.timeout (t : Timer) (p : Provider) : Provider × List Issued :=
  if t.closure.searchQuery != "" then
    ((p.callFetchArticles t.closure).1, [⟨.searchEffect, (p.callFetchArticles t.closure).2⟩])
  else (p, [])

/-- The callbacks of the given timeouts, run in order. -/
def Provider.runTimeouts : List Timer → Provider → Provider × List Issued
  | [], p => (p, [])
  | t :: ts, p =>
    ((Provider.runTimeouts ts (p.timeout t).1).1,
      (p.timeout t).2 ++ (Provider.runTimeouts ts (p.timeout t).1).2)

/-- The passing of `ms` milliseconds: the timeouts due by then leave the runtime
and their callbacks run, in the order they were set (all have the same delay). -/
def Provider.elapse (ms : Nat) (p : Provider) : Provider × List Issued :=
  Provider.runTimeouts (p.timers.filter fun t => decide (t.due ≤ p.now + ms))
    { p with
      now := p.now + ms
      timers := p.timers.filter fun t => !decide (t.due ≤ p.now + ms) }

/-- The arrival of the response to the request numbered `requestId`: the rest of
the `fetchArticles` that awaits it runs. -/
def Provider.respond (requestId : Nat) (http : FetchResult (List BackendArticle))
    (p : Provider) : Provider :=
  match p.inFlight.find? (fun r => r.1 == requestId) with
  | none => p
  | some _ =>
    { p with
      st := (fetchArticlesResolve (ApiClient.request http) p.st).1
      inFlight := p.inFlight.filter fun r => r.1 != requestId }

/-- The events of the provider. -/
inductive Event where
  | setSelectedRegion (value : String)
  | setSelectedTopic (value : String)
  | setSelectedSource (value : String)
  | setSearchQuery (value : String)
  | setDateRange (value : String)
  | elapse (ms : Nat)
  | respond (requestId : Nat) (http : FetchResult (List BackendArticle))

/-- The provider after an event, and the calls the event made on `apiClient`. -/
def Provider.step (event : Event) (p : Provider) : Provider × List Issued :=
  match event with
  | .setSelectedRegion value => p.setState { p.st with selectedRegion := value }
  | .setSelectedTopic value => p.setState { p.st with selectedTopic := value }
  | .setSelectedSource value => p.setState { p.st with selectedSource := value }
  | .setSearchQuery value => p.setState { p.st with searchQuery := value }
  | .setDateRange value => p.setState { p.st with dateRange := value }
  | .elapse ms => p.elapse ms
  | .respond requestId http => (p.respond requestId http, [])

/-- The provider after a list of events, and the calls they made, in order. -/
def Provider.run : List Event → Provider → Provider × List Issued
  | [], p => (p, [])
  | event :: events, p =>
    ((Provider.run events (p.step event).1).1,
      (p.step event).2 ++ (Provider.run events (p.step event).1).2)

/-- The provider after the first render: both effects have run once. -/
def Provider.mount : Provider :=
  Provider.searchEffect initialState
    (Provider.filterEffect initialState
      { st := initialState, now := 0, timers := [], nextTimeoutId := 0, timeoutId := none,
        inFlight := [], nextRequestId := 0 }).1

/-- The provider after a history of events since the mount. -/
def Provider.after (history : List Event) : Provider :=
  (Provider.run history Provider.mount).1

/-- The calls made by the search effect among the given ones. -/
def searchFetches (issued : List Issued) : List Issued :=
  issued.filter fun i => i.trigger == .searchEffect

/-- Is the event something other than a change of the search query? -/
def Event.keepsSearch : Event → Bool
  | .setSearchQuery _ => false
  | _ => true

/-- The time the events take. -/
def elapsed : List Event → Nat
  | [] => 0
  | .elapse ms :: events => ms + elapsed events
  | _ :: events => elapsed events

/-- The invariant of the search effect: at most one timeout is pending, and it is
the one the cleanup of the effect holds. -/
def Provider.WF (p : Provider) : Prop :=
  p.timers.length ≤ 1 ∧ ∀ t ∈ p.timers, p.timeoutId = some t.id

/-- The backend form of `sampleArticle2`. -/
def sampleBackendArticle2 : BackendArticle :=
  { id := "a2", title := "Cup final tonight", source := ⟨"BBC", "B", "bg-red-500"⟩,
    original_excerpt := "The final kicks off at eight.", summary := some "Final at eight.",
    published_at := "2024-05-01T10:00:00Z", topic := "Sports",
    url := "https://example.org/a2", image_url := none, view_count := 7, like_count := 2 }

/-- The provider 200 ms after "ai" was typed into the search box. -/
def typingProvider : Provider :=
  Provider.after [.setSearchQuery "ai", .elapse 200]

/-! ## JavaScript objects as entry lists -/

/-- The assignment `object[key] = value` on an object given by its entries in key
order: an existing key keeps its place and takes the new value, a new key goes
last. -/
def setKey {α : Type} (object : List (String × α)) (key : String) (value : α) :
    List (String × α) :=
  if object.any (fun entry => entry.1 == key) then
    object.map fun entry => if entry.1 == key then (key, value) else entry
  else object ++ [(key, value)]

/-- The entries of the object literal `{ ...target, ...source }`. -/
def spread {α : Type} (target source : List (String × α)) : List (String × α) :=
  source.foldl (fun acc entry => setKey acc entry.1 entry.2) target

/-! ## The `config` of `ApiClient.request` -/

/-- The address requested: the template `baseURL` followed by `endpoint`. -/
def ApiClient.requestUrl (baseURL endpoint : String) : String := baseURL ++ endpoint

/-- The property `headers` written first in the object literal `config`: the
default header with `options.headers` spread over it. -/
def ApiClient.mergedHeaders (options : RequestOptions) : List (String × String) :=
  spread [("Content-Type", "application/json")] (options.headers.getD [])

/-- The object literal `config` of `ApiClient.request`: the property `headers`,
then `...options`, which writes every key `options` has over what is there. -/
def ApiClient.requestConfig (options : RequestOptions) : RequestOptions :=
  { method := options.method
    body := options.body
    headers := options.headers <|> some (ApiClient.mergedHeaders options) }

/-! ## The card (`components/news-card.jsx`) -/

/-- The `useState` cells of a `NewsCard`. -/
structure CardState where
  showSummary : Bool
  isLiked : Bool
  isBookmarked : Bool
  hasViewed : Bool
deriving DecidableEq, Repr

/-- The initial values of the cells of a card. -/
def CardState.initial : CardState :=
  { showSummary := false, isLiked := false, isBookmarked := false, hasViewed := false }

/-- The number shown next to the heart: `article.likeCount + (isLiked ? 1 : 0)`. -/
def displayedLikeCount (article : Article) (card : CardState) : Nat :=
  article.likeCount + (if card.isLiked then 1 else 0)

/-- The handler `handleLike` of the card showing `article`, run against the
result of the like request: unless the card is liked already it awaits
`toggleLike(article.id)` and then sets `isLiked`. -/
def handleLike (article : Article) (card : CardState) (http : FetchResult Unit)
    (st : NewsState) : CardState × Run :=
  if !card.isLiked then
    match (toggleLike article.id http st).result with
    | .ok _ => ({ card with isLiked := true }, toggleLike article.id http st)
    | .error _ => (card, toggleLike article.id http st)
  else (card, { state := st, calls := [], result := .ok () })

/-- The handler `handleSummaryToggle` of the card showing `article`: the card
state after it, the provider state when it returns and the request then in
flight, if any. -/
def handleSummaryToggle (article : Article) (card : CardState) (st : NewsState) :
    CardState × NewsState × Option ApiCall :=
  ({ card with showSummary := !card.showSummary },
    if !card.showSummary && !truthy article.summary then toggleSummaryView article.id st
    else (st, none))

/-- The function `formatTimeAgo` on the two `getTime()` values, in milliseconds
since the epoch: the published time and the current time. Both are integers,
and `Math.floor` of the quotient by the positive number of milliseconds in an
hour is the integer quotient rounded down. -/
def formatTimeAgo (published now : Int) : String :=
  let diffInHours := (now - published) / (1000 * 60 * 60)
  if diffInHours < 1 then "Just now"
  else if diffInHours < 24 then toString diffInHours ++ "h ago"
  else toString (diffInHours / 24) ++ "d ago"

/-! ## The sidebar (`components/sidebar.jsx`) -/

/-- The constant `topics`. -/
def topics : List String :=
  ["All", "World", "Politics", "Technology", "Business", "Science", "Entertainment", "Sports"]

/-- The object `topicCounts`, as its entries: the `reduce` over `topics.slice(1)`
that assigns to each topic the number of filtered articles of that topic. -/
def topicCounts (filteredArticles : List Article) : List (String × Nat) :=
  (topics.drop 1).foldl
    (fun acc topic =>
      setKey acc topic (filteredArticles.filter fun article => article.topic == topic).length)
    []

/-- The count shown in the badge of a topic: its entry in `topicCounts`. -/
def topicCount (filteredArticles : List Article) (topic : String) : Option Nat :=
  (topicCounts filteredArticles).lookup topic

/-! ## A serialiser for sample inputs -/

/-- The hexadecimal digit of a number below 16, in upper case. -/
def hexDigit (n : Nat) : Char :=
  if n < 10 then Char.ofNat (48 + n) else Char.ofNat (55 + n)

/-- The percent-encoding of a byte. -/
def percentEncodeByte (b : UInt8) : List Char :=
  ['%', hexDigit (b.toNat / 16), hexDigit (b.toNat % 16)]

/-- The form encoding of a character: a space becomes `+`, ASCII letters and
digits and `*`, `-`, `.`, `_` stay, every other character is the
percent-encoding of its UTF-8 bytes. -/
def urlencodeChar (c : Char) : List Char :=
  if c == Char.ofNat 32 then ['+']
  else if c.isAlphanum || c == '*' || c == '-' || c == '.' || c == '_' then [c]
  else (String.utf8EncodeChar c).flatMap percentEncodeByte

/-- The form encoding of a string. -/
def urlencode (s : String) : List Char := s.data.flatMap urlencodeChar

/-- The texts joined by `&`. -/
def joinPairs : List (List Char) → List Char
  | [] => []
  | [x] => x
  | x :: y :: rest => x ++ '&' :: joinPairs (y :: rest)

/-- A model of `URLSearchParams.prototype.toString`: the `name=value` pairs in
form encoding, joined by `&`. Used for sample inputs only; the theorems take the
serialiser as a parameter. -/
def formUrlEncode (params : List (String × String)) : String :=
  ⟨joinPairs (params.map fun entry => urlencode entry.1 ++ '=' :: urlencode entry.2)⟩

/-- A sample article whose summary is the empty string. -/
def sampleArticle3 : Article :=
  { id := "a3", title := "Rates held again", source := ⟨"Bloomberg", "B", "bg-purple-500"⟩,
    originalExcerpt := "The central bank left rates unchanged.", summary := some "",
    publishedAt := "2024-05-01T11:00:00Z", topic := "Business",
    url := "https://example.org/a3", imageUrl := none, viewCount := 0, likeCount := 0,
    isLoadingSummary := false }

/-- A provider state holding the three sample articles. -/
def sampleState3 : NewsState :=
  { initialState with articles := [sampleArticle, sampleArticle2, sampleArticle3] }

/-- A sample `filters` object with a value of every kind. -/
def sampleFilters : List (String × FilterValue) :=
  [("region", .str "Global"), ("topic", .undefined), ("search_query", .str ""),
    ("page", .num 0), ("live", .bool false), ("source", .null)]

/-! ## The values the components offer -/

/-- The values of the `SelectItem`s of the region select (`components/header.jsx`). -/
def regions : List String := ["Global", "US", "EU", "Asia", "Africa"]

/-- The constant `sources` of `components/sidebar.jsx`. -/
def sources : List String :=
  ["All", "TechCrunch", "Reuters", "Bloomberg", "NASA News", "ESPN", "Variety"]

/-- The constant `dateRanges` of `components/sidebar.jsx`. -/
def dateRanges : List String := ["Today", "Last 7 days", "Last 30 days"]

/-- Is the event one the components raise? The header calls `setSelectedRegion`
with the value of a region item, the sidebar calls `setSelectedTopic` with a
topic of `topics`, `setSelectedSource` with a source of `sources` and
`setDateRange` with a range of `dateRanges`; the search box passes any text, and
the other events carry no filter value. -/
def Op.offered : Op → Bool
  | .setSelectedRegion value => regions.contains value
  | .setSelectedTopic value => topics.contains value
  | .setSelectedSource value => sources.contains value
  | .setDateRange value => dateRanges.contains value
  | _ => true

/-- The states the provider reaches under the components of the application:
the initial one and those an offered event leads to. -/
inductive Reached : NewsState → Prop where
  | init : Reached initialState
  | step (op : Op) (st : NewsState) : op.offered = true → Reached st → Reached (step op st)

/-- The state after choosing the topic "Technology", typing "ai" and receiving
the articles. -/
def searchingState : NewsState :=
  step (.fetchArticlesResolve (.ok [sampleBackendArticle]))
    (step .fetchArticlesStart
      (step (.setSearchQuery "ai") (step (.setSelectedTopic "Technology") initialState)))

/-! ## Lemmas on the string helpers -/

theorem includesChars_iff (haystack needle : List Char) :
    includesChars haystack needle = true ↔ needle <:+: haystack := by
  induction haystack with
  | nil =>
    cases needle <;> simp [includesChars]
  | cons c cs ih =>
    simp only [includesChars, Bool.or_eq_true, ih, List.isPrefixOf_iff_prefix,
      List.infix_cons_iff]

theorem includes_iff (haystack needle : String) :
    includes haystack needle = true ↔ needle.data <:+: haystack.data :=
  includesChars_iff _ _

theorem truthyString_eq_false_iff (s : String) : truthyString s = false ↔ s = "" := by
  simp [truthyString]

theorem truthyString_iff (s : String) : truthyString s = true ↔ s ≠ "" := by
  simp [truthyString]

/-- The search predicate, as a proposition about substrings. -/
theorem matchesSearch_iff (toLowerCase : String → String) (q : String) (a : Article) :
    matchesSearch toLowerCase q a = true ↔
      q = "" ∨ (toLowerCase q).data <:+: (toLowerCase a.title).data ∨
        (toLowerCase q).data <:+: (toLowerCase a.originalExcerpt).data := by
  simp [matchesSearch, includes_iff, truthyString, or_assoc]

theorem matchesTopic_iff (t : String) (a : Article) :
    matchesTopic t a = true ↔ t = "All" ∨ a.topic = t := by
  simp [matchesTopic]

theorem matchesSource_iff (s : String) (a : Article) :
    matchesSource s a = true ↔ s = "All" ∨ a.source.name = s := by
  simp [matchesSource]

theorem mem_filteredArticles (toLowerCase : String → String) (st : NewsState) (a : Article) :
    a ∈ filteredArticles toLowerCase st ↔
      a ∈ st.articles ∧
        (matchesSearch toLowerCase st.searchQuery a = true ∧
          matchesTopic st.selectedTopic a = true ∧
          matchesSource st.selectedSource a = true) := by
  simp [filteredArticles, List.mem_filter, and_assoc]

/-! ## Lemmas on the updaters -/

theorem find?_eq_none_of_forall_ne (articles : List Article) (articleId : String)
    (h : ∀ a ∈ articles, a.id ≠ articleId) :
    articles.find? (fun a => a.id == articleId) = none := by
  rw [List.find?_eq_none]
  intro a ha
  simpa using h a ha

theorem find?_some_id (articles : List Article) (articleId : String) (a : Article)
    (h : articles.find? (fun a => a.id == articleId) = some a) :
    a ∈ articles ∧ a.id = articleId := by
  refine ⟨List.mem_of_find?_eq_some h, ?_⟩
  simpa using List.find?_some h

theorem find?_isSome_of_mem (articles : List Article) (articleId : String)
    (h : ∃ a ∈ articles, a.id = articleId) :
    ∃ b, articles.find? (fun a => a.id == articleId) = some b := by
  obtain ⟨a, ha, hid⟩ := h
  cases hf : articles.find? (fun a => a.id == articleId) with
  | some b => exact ⟨b, rfl⟩
  | none =>
    rw [List.find?_eq_none] at hf
    exact absurd (by simpa using hid) (hf a ha)

theorem markLoading_eq_self_of_forall_ne (articles : List Article) (articleId : String)
    (h : ∀ a ∈ articles, a.id ≠ articleId) : markLoading articleId articles = articles := by
  unfold markLoading
  conv_rhs => rw [← List.map_id articles]
  apply List.map_congr_left
  intro a ha
  simp [h a ha]

theorem storeSummary_markLoading (articleId : String) (summary : Option String)
    (articles : List Article) :
    storeSummary articleId summary (markLoading articleId articles)
      = storeSummary articleId summary articles := by
  unfold storeSummary markLoading
  rw [List.map_map]
  apply List.map_congr_left
  intro a _
  by_cases h : a.id = articleId <;> simp [h]

theorem clearLoading_markLoading (articleId : String) (articles : List Article) :
    clearLoading articleId (markLoading articleId articles)
      = clearLoading articleId articles := by
  unfold clearLoading markLoading
  rw [List.map_map]
  apply List.map_congr_left
  intro a _
  by_cases h : a.id = articleId <;> simp [h]

theorem generateSummaryStart_of_find (st : NewsState) (articleId : String) (a : Article)
    (h : st.articles.find? (fun a => a.id == articleId) = some a) :
    generateSummaryStart articleId st
      = ({ st with articles := markLoading articleId st.articles },
          some (.generateSummary a.title a.originalExcerpt)) := by
  simp [generateSummaryStart, h]

theorem generateSummaryStart_articles (articleId : String) (st : NewsState) :
    (generateSummaryStart articleId st).1.articles = markLoading articleId st.articles := by
  unfold generateSummaryStart
  cases st.articles.find? (fun a => a.id == articleId) <;> rfl

theorem toggleSummaryView_articles (articleId : String) (st : NewsState) :
    (toggleSummaryView articleId st).1.articles = st.articles ∨
      (toggleSummaryView articleId st).1.articles = markLoading articleId st.articles := by
  unfold toggleSummaryView
  cases st.articles.find? (fun a => a.id == articleId) with
  | none => exact Or.inl rfl
  | some article =>
    by_cases h : (!truthy article.summary && !article.isLoadingSummary) = true
    · simp only [if_pos h]
      exact Or.inr (generateSummaryStart_articles articleId st)
    · simp only [if_neg h]
      exact Or.inl trivial

/-- Under an event that keeps summaries the collection is mapped by a function
that keeps each id and never turns a non-empty summary into an empty one. -/
theorem step_articles_eq_map (op : Op) (st : NewsState) (hop : op.keepsSummaries = true) :
    ∃ f : Article → Article, (step op st).articles = st.articles.map f ∧
      ∀ a, (f a).id = a.id ∧ (truthy a.summary = true → truthy (f a).summary = true) := by
  have hid : ∃ f : Article → Article, st.articles = st.articles.map f ∧
      ∀ a, (f a).id = a.id ∧ (truthy a.summary = true → truthy (f a).summary = true) :=
    ⟨id, by simp, fun a => ⟨rfl, fun h => h⟩⟩
  have hmark : ∀ articleId, ∃ f : Article → Article,
      markLoading articleId st.articles = st.articles.map f ∧
      ∀ a, (f a).id = a.id ∧ (truthy a.summary = true → truthy (f a).summary = true) := by
    intro articleId
    refine ⟨_, rfl, fun a => ?_⟩
    by_cases h : a.id = articleId <;> simp [h]
  cases op with
  | setSelectedRegion value => exact hid
  | setSelectedTopic value => exact hid
  | setSelectedSource value => exact hid
  | setSearchQuery value => exact hid
  | setDateRange value => exact hid
  | fetchArticlesStart => exact hid
  | fetchArticlesResolve outcome =>
    cases outcome with
    | ok fetched => simp [Op.keepsSummaries] at hop
    | error e => exact hid
  | generateSummaryStart articleId =>
    show ∃ f : Article → Article,
      (generateSummaryStart articleId st).1.articles = st.articles.map f ∧ _
    rw [generateSummaryStart_articles]
    exact hmark articleId
  | generateSummaryResolve articleId outcome =>
    cases outcome with
    | ok response =>
      have hresp : truthy response.summary = true := by simpa [Op.keepsSummaries] using hop
      refine ⟨_, rfl, fun a => ?_⟩
      by_cases h : a.id = articleId <;> simp [h, hresp]
    | error e =>
      refine ⟨_, rfl, fun a => ?_⟩
      by_cases h : a.id = articleId <;> simp [h]
  | toggleSummaryView articleId =>
    show ∃ f : Article → Article,
      (toggleSummaryView articleId st).1.articles = st.articles.map f ∧ _
    rcases toggleSummaryView_articles articleId st with h | h
    · rw [h]
      exact hid
    · rw [h]
      exact hmark articleId
  | trackViewResolve articleId outcome =>
    cases outcome with
    | ok u =>
      refine ⟨_, rfl, fun a => ?_⟩
      by_cases h : a.id = articleId <;> simp [h]
    | error e => exact hid
  | toggleLikeResolve articleId outcome =>
    cases outcome with
    | ok u =>
      refine ⟨_, rfl, fun a => ?_⟩
      by_cases h : a.id = articleId <;> simp [h]
    | error e => exact hid

theorem summarisedState_reachable : Reachable summarisedState :=
  .step _ _ (.step _ _ (.step _ _ (.step _ _ .init)))

/-! ## The filter -/

/-- C1: `filteredArticles` is an order-preserving sublist of `articles`, and
every article in it passes each active predicate: its topic is the selected
topic unless that is "All", its source name is the selected source unless that
is "All", and unless the query is empty its lower-cased title or excerpt
contains the lower-cased query. In particular, with topic "Technology" and an
empty query every article returned has topic exactly "Technology". -/
theorem filteredArticles_sublist_and_sound (toLowerCase : String → String) (st : NewsState) :
    List.Sublist (filteredArticles toLowerCase st) st.articles ∧
      (∀ a ∈ filteredArticles toLowerCase st,
        (st.selectedTopic ≠ "All" → a.topic = st.selectedTopic) ∧
        (st.selectedSource ≠ "All" → a.source.name = st.selectedSource) ∧
        (st.searchQuery ≠ "" →
          (toLowerCase st.searchQuery).data <:+: (toLowerCase a.title).data ∨
          (toLowerCase st.searchQuery).data <:+: (toLowerCase a.originalExcerpt).data)) ∧
      (st.selectedTopic = "Technology" → st.searchQuery = "" →
        ∀ a ∈ filteredArticles toLowerCase st, a.topic = "Technology") := by
  have sound : ∀ a ∈ filteredArticles toLowerCase st,
      (st.selectedTopic ≠ "All" → a.topic = st.selectedTopic) ∧
      (st.selectedSource ≠ "All" → a.source.name = st.selectedSource) ∧
      (st.searchQuery ≠ "" →
        (toLowerCase st.searchQuery).data <:+: (toLowerCase a.title).data ∨
        (toLowerCase st.searchQuery).data <:+: (toLowerCase a.originalExcerpt).data) := by
    intro a ha
    obtain ⟨_, hs, ht, hsrc⟩ := (mem_filteredArticles toLowerCase st a).1 ha
    rw [matchesSearch_iff] at hs
    rw [matchesTopic_iff] at ht
    rw [matchesSource_iff] at hsrc
    refine ⟨fun h => ht.resolve_left h, fun h => hsrc.resolve_left h, fun h => hs.resolve_left h⟩
  refine ⟨List.filter_sublist _, sound, ?_⟩
  intro htopic _ a ha
  have h := (sound a ha).1 (by rw [htopic]; decide)
  rw [h, htopic]

/-- C2: the filter is complete. An article is in `filteredArticles` exactly when
it is in `articles` and satisfies the conjunction of the search predicate (empty
query, or lower-cased title contains the lower-cased query, or lower-cased
excerpt does), topic equality (or topic "All") and source-name equality (or
source "All"); and such an article occurs in `filteredArticles` as often as in
`articles`, so none is dropped. -/
theorem filteredArticles_complete (toLowerCase : String → String) (st : NewsState)
    (a : Article) :
    (a ∈ filteredArticles toLowerCase st ↔
      a ∈ st.articles ∧
        (st.searchQuery = "" ∨
          (toLowerCase st.searchQuery).data <:+: (toLowerCase a.title).data ∨
          (toLowerCase st.searchQuery).data <:+: (toLowerCase a.originalExcerpt).data) ∧
        (st.selectedTopic = "All" ∨ a.topic = st.selectedTopic) ∧
        (st.selectedSource = "All" ∨ a.source.name = st.selectedSource)) ∧
    (((st.searchQuery = "" ∨
          (toLowerCase st.searchQuery).data <:+: (toLowerCase a.title).data ∨
          (toLowerCase st.searchQuery).data <:+: (toLowerCase a.originalExcerpt).data) ∧
        (st.selectedTopic = "All" ∨ a.topic = st.selectedTopic) ∧
        (st.selectedSource = "All" ∨ a.source.name = st.selectedSource)) →
      (filteredArticles toLowerCase st).count a = st.articles.count a) := by
  constructor
  · rw [mem_filteredArticles, matchesSearch_iff, matchesTopic_iff, matchesSource_iff]
  · rintro ⟨hs, ht, hsrc⟩
    rw [← matchesSearch_iff] at hs
    rw [← matchesTopic_iff] at ht
    rw [← matchesSource_iff] at hsrc
    unfold filteredArticles
    rw [List.count_filter]
    simp [hs, ht, hsrc]


/-! ## `fetchArticles` -/

/-- C3: when the articles request fails, by a network error or by a response
that is not OK, the article collection after `fetchArticles` is the one before
it, `error` is "Failed to load articles. Please try again." and `loading` is
false. -/
theorem fetchArticles_failure (st : NewsState) (http : FetchResult (List BackendArticle))
    (hfail : (∃ message, http = .networkError message) ∨
      (∃ status json, http = .response false status json)) :
    (fetchArticles http st).state.articles = st.articles ∧
      (fetchArticles http st).state.error = some "Failed to load articles. Please try again." ∧
      (fetchArticles http st).state.loading = false := by
  rcases hfail with ⟨message, rfl⟩ | ⟨status, json, rfl⟩ <;>
    simp [fetchArticles, fetchArticlesStart, fetchArticlesResolve, ApiClient.request,
      fetchErrorMessage]

theorem fetchArticles_failure_witness :
    (fetchArticles (.response false 500 (.ok [sampleBackendArticle])) sampleState).state.articles
        = [sampleArticle, sampleArticle2] ∧
      (fetchArticles (.response false 500 (.ok [sampleBackendArticle])) sampleState).state.error
        = some "Failed to load articles. Please try again." ∧
      (fetchArticles (.response false 500 (.ok [sampleBackendArticle])) sampleState).state.loading
        = false :=
  fetchArticles_failure sampleState (.response false 500 (.ok [sampleBackendArticle]))
    (Or.inr ⟨500, .ok [sampleBackendArticle], rfl⟩)

/-- C4: when the articles request succeeds with the list `fetched`, the article
collection becomes the element-wise transform of `fetched` (same length, same
order, independent of the prior collection), each client article carrying the
backend fields under their camelCase names with `isLoadingSummary = false`;
`error` is null and `loading` is false afterwards. -/
theorem fetchArticles_success (st : NewsState) (status : Nat) (fetched : List BackendArticle) :
    (fetchArticles (.response true status (.ok fetched)) st).state.articles
        = fetched.map transformArticle ∧
      (fetchArticles (.response true status (.ok fetched)) st).state.articles.length
        = fetched.length ∧
      (∀ (i : Nat) (b : BackendArticle), fetched[i]? = some b →
        ∃ a, (fetchArticles (.response true status (.ok fetched)) st).state.articles[i]? = some a ∧
          a.id = b.id ∧ a.title = b.title ∧ a.topic = b.topic ∧ a.url = b.url ∧
          a.summary = b.summary ∧ a.source.name = b.source.name ∧
          a.source.favicon = b.source.favicon ∧ a.source.color = b.source.color ∧
          a.originalExcerpt = b.original_excerpt ∧ a.publishedAt = b.published_at ∧
          a.imageUrl = b.image_url ∧ a.viewCount = b.view_count ∧
          a.likeCount = b.like_count ∧ a.isLoadingSummary = false) ∧
      (fetchArticles (.response true status (.ok fetched)) st).state.error = none ∧
      (fetchArticles (.response true status (.ok fetched)) st).state.loading = false := by
  have harts : (fetchArticles (.response true status (.ok fetched)) st).state.articles
      = fetched.map transformArticle := by
    simp [fetchArticles, fetchArticlesStart, fetchArticlesResolve, ApiClient.request]
  refine ⟨harts, by rw [harts, List.length_map], ?_, ?_, ?_⟩
  · intro i b hb
    refine ⟨transformArticle b, ?_, ?_⟩
    · rw [harts, List.getElem?_map, hb]
      rfl
    · simp [transformArticle]
  · simp [fetchArticles, fetchArticlesStart, fetchArticlesResolve, ApiClient.request]
  · simp [fetchArticles, fetchArticlesStart, fetchArticlesResolve, ApiClient.request]


/-! ## Summaries -/

/-- C5: `toggleSummaryView` does nothing when the article found for the id has a
summary (a non-empty one) or is loading, and when no article has the id: no
summary request is issued and the state, the article collection included, is
unchanged. -/
theorem toggleSummaryView_noop (st : NewsState) (articleId : String)
    (h : (∃ a, st.articles.find? (fun a => a.id == articleId) = some a ∧
            (truthy a.summary = true ∨ a.isLoadingSummary = true)) ∨
          (∀ a ∈ st.articles, a.id ≠ articleId)) :
    toggleSummaryView articleId st = (st, none) := by
  rcases h with ⟨a, hfind, hsum | hload⟩ | hnone
  · simp [toggleSummaryView, hfind, hsum]
  · simp [toggleSummaryView, hfind, hload]
  · simp [toggleSummaryView, find?_eq_none_of_forall_ne _ _ hnone]

theorem toggleSummaryView_noop_witness :
    toggleSummaryView "a2" sampleState = (sampleState, none) :=
  toggleSummaryView_noop sampleState "a2"
    (Or.inl ⟨sampleArticle2, by decide, Or.inl (by decide)⟩)


/-- C6, as stated, fails: `generateSummary` called for `sampleArticle2`, which
has a summary, marks it loading, issues a summarize request and, once the
request succeeds, replaces the summary. -/
theorem generateSummary_refetches :
    truthy sampleArticle2.summary = true ∧
      (generateSummaryStart "a2" sampleState).2
        = some (.generateSummary "Cup final tonight" "The final kicks off at eight.") ∧
      (generateSummaryStart "a2" sampleState).1.articles
        = [sampleArticle, { sampleArticle2 with isLoadingSummary := true }] ∧
      (generateSummary "a2" (.response true 200 (.ok ⟨some "Kick-off at 8."⟩)) sampleState).calls
        = [.generateSummary "Cup final tonight" "The final kicks off at eight."] ∧
      (generateSummary "a2" (.response true 200 (.ok ⟨some "Kick-off at 8."⟩))
          sampleState).state.articles
        = [sampleArticle, { sampleArticle2 with summary := some "Kick-off at 8." }] := by
  decide

/-- C6, amended: once the article found for the id has a non-empty summary,
triggering `toggleSummaryView` any number of times issues no summarize request
and leaves the state unchanged. `generateSummary` itself has no such guard: on
the same state it issues a summarize request for that article and marks every
article of the id loading, leaving all summaries as they are until the request
resolves. -/
theorem toggleSummaryView_idempotent (st : NewsState) (articleId : String) (a : Article)
    (hfind : st.articles.find? (fun a => a.id == articleId) = some a)
    (hsum : truthy a.summary = true) :
    (toggleSummaryView articleId st).2 = none ∧
      (∀ n : Nat, (fun s => (toggleSummaryView articleId s).1)^[n] st = st) ∧
      (generateSummaryStart articleId st).2
        = some (.generateSummary a.title a.originalExcerpt) ∧
      (∀ b ∈ (generateSummaryStart articleId st).1.articles,
        b.id = articleId → b.isLoadingSummary = true) ∧
      (generateSummaryStart articleId st).1.articles.map (fun b => b.summary)
        = st.articles.map (fun b => b.summary) := by
  have hnoop : toggleSummaryView articleId st = (st, none) := by
    simp [toggleSummaryView, hfind, hsum]
  refine ⟨by rw [hnoop], ?_, ?_, ?_, ?_⟩
  · intro n
    apply Function.iterate_fixed
    rw [hnoop]
  · rw [generateSummaryStart_of_find st articleId a hfind]
  · rw [generateSummaryStart_of_find st articleId a hfind]
    intro b hb hid
    simp only [markLoading, List.mem_map] at hb
    obtain ⟨c, _, rfl⟩ := hb
    by_cases hc : c.id = articleId
    · simp [hc]
    · simp [hc] at hid
  · rw [generateSummaryStart_of_find st articleId a hfind]
    simp only [markLoading, List.map_map]
    apply List.map_congr_left
    intro c _
    by_cases hc : c.id = articleId <;> simp [hc]

theorem toggleSummaryView_idempotent_witness :
    (toggleSummaryView "a2" sampleState).2 = none ∧
      (∀ n : Nat, (fun s => (toggleSummaryView "a2" s).1)^[n] sampleState = sampleState) ∧
      (generateSummaryStart "a2" sampleState).2
        = some (.generateSummary sampleArticle2.title sampleArticle2.originalExcerpt) ∧
      (∀ b ∈ (generateSummaryStart "a2" sampleState).1.articles,
        b.id = "a2" → b.isLoadingSummary = true) ∧
      (generateSummaryStart "a2" sampleState).1.articles.map (fun b => b.summary)
        = sampleState.articles.map (fun b => b.summary) :=
  toggleSummaryView_idempotent sampleState "a2" sampleArticle2 (by decide) (by decide)

/-- C7: when the collection holds an article of the given id and the summarize
request returns the summary `s`, `generateSummary` issues that one request and
afterwards the collection has the same length, every article of the id has
`summary = s` and `isLoadingSummary = false` (its other fields as before), and
every article of another id is unchanged. -/
theorem generateSummary_success (st : NewsState) (articleId : String) (status : Nat)
    (s : String) (hmem : ∃ a ∈ st.articles, a.id = articleId) :
    (generateSummary articleId (.response true status (.ok ⟨some s⟩)) st).state.articles.length
        = st.articles.length ∧
      (∀ (i : Nat) (a : Article), st.articles[i]? = some a →
        ∃ b, (generateSummary articleId (.response true status (.ok ⟨some s⟩))
            st).state.articles[i]? = some b ∧
          (a.id = articleId →
            b = { a with summary := some s, isLoadingSummary := false } ∧
              b.summary = some s ∧ b.isLoadingSummary = false) ∧
          (a.id ≠ articleId → b = a)) ∧
      (generateSummary articleId (.response true status (.ok ⟨some s⟩)) st).calls.length = 1 := by
  obtain ⟨found, hfind⟩ := find?_isSome_of_mem st.articles articleId hmem
  have harts : (generateSummary articleId (.response true status (.ok ⟨some s⟩))
      st).state.articles = storeSummary articleId (some s) st.articles := by
    simp [generateSummary, generateSummaryStart_of_find st articleId found hfind,
      generateSummaryResolve, ApiClient.request, storeSummary_markLoading]
  refine ⟨by rw [harts]; simp [storeSummary], ?_, ?_⟩
  · intro i a ha
    rw [harts]
    by_cases hid : a.id = articleId
    · exact ⟨{ a with summary := some s, isLoadingSummary := false },
        by simp [storeSummary, List.getElem?_map, ha, hid], fun _ => ⟨rfl, rfl, rfl⟩,
        fun h => absurd hid h⟩
    · exact ⟨a, by simp [storeSummary, List.getElem?_map, ha, hid],
        fun h => absurd h hid, fun _ => rfl⟩
  · simp [generateSummary, generateSummaryStart_of_find st articleId found hfind]

theorem generateSummary_success_witness :
    (generateSummary "a1" (.response true 200 (.ok ⟨some "Chips up."⟩))
        sampleState).state.articles.length = sampleState.articles.length ∧
      (∀ (i : Nat) (a : Article), sampleState.articles[i]? = some a →
        ∃ b, (generateSummary "a1" (.response true 200 (.ok ⟨some "Chips up."⟩))
            sampleState).state.articles[i]? = some b ∧
          (a.id = "a1" →
            b = { a with summary := some "Chips up.", isLoadingSummary := false } ∧
              b.summary = some "Chips up." ∧ b.isLoadingSummary = false) ∧
          (a.id ≠ "a1" → b = a)) ∧
      (generateSummary "a1" (.response true 200 (.ok ⟨some "Chips up."⟩))
        sampleState).calls.length = 1 :=
  generateSummary_success sampleState "a1" 200 "Chips up."
    ⟨sampleArticle, by decide, by decide⟩


/-- C8: when the collection holds an article of the given id and the summarize
request fails (network error or response that is not OK), after
`generateSummary` every article of the id has `isLoadingSummary = false`, every
article keeps its summary, articles of another id are unchanged, the provider
`error` is what it was, exactly one request was issued (no retry) and the
handler resolves, so the exception is not propagated. -/
theorem generateSummary_failure (st : NewsState) (articleId : String)
    (http : FetchResult SummaryResponse)
    (hmem : ∃ a ∈ st.articles, a.id = articleId)
    (hfail : (∃ message, http = .networkError message) ∨
      (∃ status json, http = .response false status json)) :
    (generateSummary articleId http st).state.articles.length = st.articles.length ∧
      (∀ (i : Nat) (a : Article), st.articles[i]? = some a →
        ∃ b, (generateSummary articleId http st).state.articles[i]? = some b ∧
          b.summary = a.summary ∧
          (a.id = articleId →
            b = { a with isLoadingSummary := false } ∧ b.isLoadingSummary = false) ∧
          (a.id ≠ articleId → b = a)) ∧
      (generateSummary articleId http st).state.error = st.error ∧
      (generateSummary articleId http st).state.loading = st.loading ∧
      (∃ found, st.articles.find? (fun a => a.id == articleId) = some found ∧
        (generateSummary articleId http st).calls
          = [.generateSummary found.title found.originalExcerpt]) ∧
      (generateSummary articleId http st).result = .ok () := by
  obtain ⟨found, hfind⟩ := find?_isSome_of_mem st.articles articleId hmem
  have hrun : generateSummary articleId http st
      = { state := { st with articles := clearLoading articleId st.articles },
          calls := [.generateSummary found.title found.originalExcerpt],
          result := .ok () } := by
    rcases hfail with ⟨message, rfl⟩ | ⟨status, json, rfl⟩ <;>
      simp [generateSummary, generateSummaryStart_of_find st articleId found hfind,
        generateSummaryResolve, ApiClient.request, clearLoading_markLoading]
  rw [hrun]
  refine ⟨by simp [clearLoading], ?_, rfl, rfl, ⟨found, hfind, rfl⟩, rfl⟩
  intro i a ha
  by_cases hid : a.id = articleId
  · exact ⟨{ a with isLoadingSummary := false },
      by simp [clearLoading, List.getElem?_map, ha, hid], rfl, fun _ => ⟨rfl, rfl⟩,
      fun h => absurd hid h⟩
  · exact ⟨a, by simp [clearLoading, List.getElem?_map, ha, hid], rfl,
      fun h => absurd h hid, fun _ => rfl⟩

theorem generateSummary_failure_witness :
    (generateSummary "a1" (.networkError "Failed to fetch") sampleState).state.articles.length
        = sampleState.articles.length ∧
      (∀ (i : Nat) (a : Article), sampleState.articles[i]? = some a →
        ∃ b, (generateSummary "a1" (.networkError "Failed to fetch")
            sampleState).state.articles[i]? = some b ∧
          b.summary = a.summary ∧
          (a.id = "a1" →
            b = { a with isLoadingSummary := false } ∧ b.isLoadingSummary = false) ∧
          (a.id ≠ "a1" → b = a)) ∧
      (generateSummary "a1" (.networkError "Failed to fetch") sampleState).state.error
        = sampleState.error ∧
      (generateSummary "a1" (.networkError "Failed to fetch") sampleState).state.loading
        = sampleState.loading ∧
      (∃ found, sampleState.articles.find? (fun a => a.id == "a1") = some found ∧
        (generateSummary "a1" (.networkError "Failed to fetch") sampleState).calls
          = [.generateSummary found.title found.originalExcerpt]) ∧
      (generateSummary "a1" (.networkError "Failed to fetch") sampleState).result = .ok () :=
  generateSummary_failure sampleState "a1" (.networkError "Failed to fetch")
    ⟨sampleArticle, by decide, by decide⟩ (Or.inl ⟨"Failed to fetch", rfl⟩)

/-- C9: when the article found for the id has no summary and is not loading,
`toggleSummaryView` issues exactly one summarize request, carrying that
article's title and originalExcerpt: the one call it makes on `apiClient` is
`generateSummary(title, originalExcerpt)`, which `ApiClient` turns into a POST
to `/api/ai/summarize` whose body is the JSON of `{ title, content }` with that
title and, as content, that excerpt, sent with the default `Content-Type`
header. Before the request resolves the state differs from the prior one only
in the collection, where every article of the id is the same article with
`isLoadingSummary = true` and every other article is unchanged. -/
theorem toggleSummaryView_start (st : NewsState) (articleId : String) (a : Article)
    (serialize : List (String × String) → String) (baseURL : String)
    (hfind : st.articles.find? (fun a => a.id == articleId) = some a)
    (hsum : truthy a.summary = false) (hload : a.isLoadingSummary = false) :
    (toggleSummaryView articleId st).2
        = some (.generateSummary a.title a.originalExcerpt) ∧
      (toggleSummaryView articleId st).1
        = { st with articles := (toggleSummaryView articleId st).1.articles } ∧
      (toggleSummaryView articleId st).1.articles.length = st.articles.length ∧
      (∀ (i : Nat) (c : Article), st.articles[i]? = some c →
        ∃ b, (toggleSummaryView articleId st).1.articles[i]? = some b ∧
          (c.id = articleId → b = { c with isLoadingSummary := true }) ∧
          (c.id ≠ articleId → b = c)) ∧
      ((toggleSummaryView articleId st).2.map (ApiClient.requestArgs serialize)
        = some
            { endpoint := "/api/ai/summarize"
              options :=
                { method := some "POST"
                  body := some ⟨[("title", a.title), ("content", a.originalExcerpt)]⟩
                  headers := none } }) ∧
      ((toggleSummaryView articleId st).2.map
          (fun call =>
            (ApiClient.requestUrl baseURL (ApiClient.requestArgs serialize call).endpoint,
              ApiClient.requestConfig (ApiClient.requestArgs serialize call).options,
              (ApiClient.requestConfig
                (ApiClient.requestArgs serialize call).options).httpMethod))
        = some
            (baseURL ++ "/api/ai/summarize",
              { method := some "POST"
                body := some ⟨[("title", a.title), ("content", a.originalExcerpt)]⟩
                headers := some [("Content-Type", "application/json")] },
              "POST")) := by
  have hrun : toggleSummaryView articleId st
      = ({ st with articles := markLoading articleId st.articles },
          some (.generateSummary a.title a.originalExcerpt)) := by
    simp [toggleSummaryView, hfind, hsum, hload,
      generateSummaryStart_of_find st articleId a hfind]
  rw [hrun]
  refine ⟨rfl, rfl, by simp [markLoading], ?_, rfl, rfl⟩
  intro i c hc
  by_cases hid : c.id = articleId
  · exact ⟨{ c with isLoadingSummary := true },
      by simp [markLoading, List.getElem?_map, hc, hid], fun _ => rfl, fun h => absurd hid h⟩
  · exact ⟨c, by simp [markLoading, List.getElem?_map, hc, hid],
      fun h => absurd h hid, fun _ => rfl⟩

theorem toggleSummaryView_start_witness :
    (toggleSummaryView "a1" sampleState).2
        = some (.generateSummary sampleArticle.title sampleArticle.originalExcerpt) ∧
      (toggleSummaryView "a1" sampleState).1
        = { sampleState with articles := (toggleSummaryView "a1" sampleState).1.articles } ∧
      (toggleSummaryView "a1" sampleState).1.articles.length = sampleState.articles.length ∧
      (∀ (i : Nat) (c : Article), sampleState.articles[i]? = some c →
        ∃ b, (toggleSummaryView "a1" sampleState).1.articles[i]? = some b ∧
          (c.id = "a1" → b = { c with isLoadingSummary := true }) ∧
          (c.id ≠ "a1" → b = c)) ∧
      ((toggleSummaryView "a1" sampleState).2.map (ApiClient.requestArgs formUrlEncode)
        = some
            { endpoint := "/api/ai/summarize"
              options :=
                { method := some "POST"
                  body := some
                    ⟨[("title", sampleArticle.title), ("content", sampleArticle.originalExcerpt)]⟩
                  headers := none } }) ∧
      ((toggleSummaryView "a1" sampleState).2.map
          (fun call =>
            (ApiClient.requestUrl "http://localhost:8000"
                (ApiClient.requestArgs formUrlEncode call).endpoint,
              ApiClient.requestConfig (ApiClient.requestArgs formUrlEncode call).options,
              (ApiClient.requestConfig
                (ApiClient.requestArgs formUrlEncode call).options).httpMethod))
        = some
            ("http://localhost:8000" ++ "/api/ai/summarize",
              { method := some "POST"
                body := some
                  ⟨[("title", sampleArticle.title), ("content", sampleArticle.originalExcerpt)]⟩
                headers := some [("Content-Type", "application/json")] },
              "POST")) :=
  toggleSummaryView_start sampleState "a1" sampleArticle formUrlEncode "http://localhost:8000"
    (by decide) (by decide) (by decide)


/-- C10, as stated, fails. In a reachable state where article "a1" has a summary
(loaded, summary requested, summary arrived), a successful refetch that returns
the article as the backend holds it, without summary, leaves the id without a
summary; so does a successful summarize response that carries no text. -/
theorem summary_regresses_on_refetch :
    Reachable summarisedState ∧
      idHasSummary summarisedState.articles "a1" = true ∧
      idHasSummary (step (.fetchArticlesResolve (.ok [sampleBackendArticle]))
        (step .fetchArticlesStart summarisedState)).articles "a1" = false ∧
      idHasSummary (step (.generateSummaryResolve "a1" (.ok ⟨none⟩))
        summarisedState).articles "a1" = false :=
  ⟨summarisedState_reachable, by decide, by decide, by decide⟩

/-- C10, amended: every event other than a successful fetch and a successful
summarize response without text (the filter setters, fetchArticles start and
failure, generateSummary start and failure, generateSummary success with a
non-empty summary, toggleSummaryView, trackView, toggleLike) keeps the length
of the collection and, position by position, the id, and an article that has a
summary before still has one after; hence an id that has a summary keeps having
one. A successful fetch replaces the collection: afterwards an id has a summary
exactly when the response holds an article of that id with one. -/
theorem step_keeps_summaries (op : Op) (st : NewsState) (hop : op.keepsSummaries = true) :
    (step op st).articles.length = st.articles.length ∧
      (∀ (i : Nat) (a : Article), st.articles[i]? = some a →
        ∃ b, (step op st).articles[i]? = some b ∧ b.id = a.id ∧
          (truthy a.summary = true → truthy b.summary = true)) ∧
      (∀ articleId : String, idHasSummary st.articles articleId = true →
        idHasSummary (step op st).articles articleId = true) ∧
      (∀ (fetched : List BackendArticle) (articleId : String),
        idHasSummary (step (.fetchArticlesResolve (.ok fetched)) st).articles articleId
          = fetched.any (fun b => b.id == articleId && truthy b.summary)) := by
  obtain ⟨f, hmap, hf⟩ := step_articles_eq_map op st hop
  refine ⟨by rw [hmap, List.length_map], ?_, ?_, ?_⟩
  · intro i a ha
    exact ⟨f a, by rw [hmap, List.getElem?_map, ha]; rfl, (hf a).1, (hf a).2⟩
  · intro articleId h
    rw [hmap]
    simp only [idHasSummary, List.any_eq_true, Bool.and_eq_true, beq_iff_eq] at h ⊢
    obtain ⟨a, ha, hid, hsum⟩ := h
    exact ⟨f a, List.mem_map_of_mem f ha, by rw [(hf a).1, hid], (hf a).2 hsum⟩
  · intro fetched articleId
    simp only [step, fetchArticlesResolve, idHasSummary]
    induction fetched with
    | nil => rfl
    | cons b bs ih => simp only [List.map_cons, List.any_cons, ih, transformArticle]

theorem step_keeps_summaries_witness :
    (step (.trackViewResolve "a1" (.ok ())) summarisedState).articles.length
        = summarisedState.articles.length ∧
      (∀ (i : Nat) (a : Article), summarisedState.articles[i]? = some a →
        ∃ b, (step (.trackViewResolve "a1" (.ok ())) summarisedState).articles[i]? = some b ∧
          b.id = a.id ∧ (truthy a.summary = true → truthy b.summary = true)) ∧
      (∀ articleId : String, idHasSummary summarisedState.articles articleId = true →
        idHasSummary (step (.trackViewResolve "a1" (.ok ())) summarisedState).articles
          articleId = true) ∧
      (∀ (fetched : List BackendArticle) (articleId : String),
        idHasSummary (step (.fetchArticlesResolve (.ok fetched)) summarisedState).articles
            articleId
          = fetched.any (fun b => b.id == articleId && truthy b.summary)) :=
  step_keeps_summaries (.trackViewResolve "a1" (.ok ())) summarisedState (by decide)


/-! ## Views and likes -/

theorem request_error_of_failed {β : Type} (http : FetchResult β)
    (hfail : (∃ message, http = .networkError message) ∨
      (∃ status json, http = .response false status json)) :
    ∃ e, ApiClient.request http = .error e := by
  rcases hfail with ⟨message, rfl⟩ | ⟨status, json, rfl⟩
  · exact ⟨message, rfl⟩
  · exact ⟨_, rfl⟩

theorem trackView_of_error (articleId : String) (http : FetchResult Unit) (st : NewsState)
    (e : String) (h : ApiClient.request http = .error e) :
    trackView articleId http st
      = { state := st, calls := [.trackView articleId], result := .ok () } := by
  simp [trackView, trackViewStart, trackViewResolve, h]

theorem toggleLike_of_error (articleId : String) (http : FetchResult Unit) (st : NewsState)
    (e : String) (h : ApiClient.request http = .error e) :
    toggleLike articleId http st
      = { state := st, calls := [.toggleLike articleId], result := .ok () } := by
  simp [toggleLike, toggleLikeStart, toggleLikeResolve, h]

/-- C11, as stated, fails: when the view (resp. like) request of article "a1"
fails, `trackView` (resp. `toggleLike`) leaves its `viewCount` at 3 (resp. its
`likeCount` at 1) instead of raising it by one. -/
theorem tracking_failure_keeps_counter :
    sampleState.articles.map (fun a => (a.id, a.viewCount, a.likeCount))
        = [("a1", 3, 1), ("a2", 7, 2)] ∧
      (trackView "a1" (.networkError "Failed to fetch") sampleState).state.articles.map
          (fun a => (a.id, a.viewCount, a.likeCount)) = [("a1", 3, 1), ("a2", 7, 2)] ∧
      (toggleLike "a1" (.response false 500 (.ok ())) sampleState).state.articles.map
          (fun a => (a.id, a.viewCount, a.likeCount)) = [("a1", 3, 1), ("a2", 7, 2)] := by
  decide

/-- C11, amended: when the backend view (resp. like) request fails, by a network
error or a response that is not OK, `trackView` (resp. `toggleLike`) has issued
that one request and leaves the article collection exactly as it was, so no
`viewCount` and no `likeCount` changes: the increment runs only after a request
that succeeded. -/
theorem tracking_failure_leaves_articles (st : NewsState) (articleId : String)
    (http : FetchResult Unit)
    (hfail : (∃ message, http = .networkError message) ∨
      (∃ status json, http = .response false status json)) :
    (trackView articleId http st).state.articles = st.articles ∧
      (trackView articleId http st).calls = [.trackView articleId] ∧
      (toggleLike articleId http st).state.articles = st.articles ∧
      (toggleLike articleId http st).calls = [.toggleLike articleId] := by
  obtain ⟨e, he⟩ := request_error_of_failed http hfail
  rw [trackView_of_error articleId http st e he, toggleLike_of_error articleId http st e he]
  exact ⟨rfl, rfl, rfl, rfl⟩

theorem tracking_failure_leaves_articles_witness :
    (trackView "a1" (.networkError "Failed to fetch") sampleState).state.articles
        = sampleState.articles ∧
      (trackView "a1" (.networkError "Failed to fetch") sampleState).calls
        = [.trackView "a1"] ∧
      (toggleLike "a1" (.networkError "Failed to fetch") sampleState).state.articles
        = sampleState.articles ∧
      (toggleLike "a1" (.networkError "Failed to fetch") sampleState).calls
        = [.toggleLike "a1"] :=
  tracking_failure_leaves_articles sampleState "a1" (.networkError "Failed to fetch")
    (Or.inl ⟨"Failed to fetch", rfl⟩)

/-- C12: when the backend request succeeds, `trackView` turns every article of
the id into the same article with `viewCount` one higher (so `likeCount` is
unchanged) and `toggleLike` into the same article with `likeCount` one higher
(so `viewCount` is unchanged); articles of another id are unchanged; and the one
request made is a POST to `/api/news/articles/{id}/view` (resp. `/like`). -/
theorem tracking_success (st : NewsState) (articleId : String) (status : Nat)
    (serialize : List (String × String) → String) :
    (∀ (i : Nat) (a : Article), st.articles[i]? = some a →
        ∃ b, (trackView articleId (.response true status (.ok ())) st).state.articles[i]?
            = some b ∧
          (a.id = articleId → b = { a with viewCount := a.viewCount + 1 } ∧
            b.viewCount = a.viewCount + 1 ∧ b.likeCount = a.likeCount) ∧
          (a.id ≠ articleId → b = a)) ∧
      (∀ (i : Nat) (a : Article), st.articles[i]? = some a →
        ∃ b, (toggleLike articleId (.response true status (.ok ())) st).state.articles[i]?
            = some b ∧
          (a.id = articleId → b = { a with likeCount := a.likeCount + 1 } ∧
            b.likeCount = a.likeCount + 1 ∧ b.viewCount = a.viewCount) ∧
          (a.id ≠ articleId → b = a)) ∧
      (trackView articleId (.response true status (.ok ())) st).state.articles.length
        = st.articles.length ∧
      (toggleLike articleId (.response true status (.ok ())) st).state.articles.length
        = st.articles.length ∧
      (trackView articleId (.response true status (.ok ())) st).calls.map
          (fun call => ((ApiClient.requestArgs serialize call).endpoint,
            (ApiClient.requestArgs serialize call).options.httpMethod))
        = [("/api/news/articles/" ++ articleId ++ "/view", "POST")] ∧
      (toggleLike articleId (.response true status (.ok ())) st).calls.map
          (fun call => ((ApiClient.requestArgs serialize call).endpoint,
            (ApiClient.requestArgs serialize call).options.httpMethod))
        = [("/api/news/articles/" ++ articleId ++ "/like", "POST")] := by
  have hview : (trackView articleId (.response true status (.ok ())) st).state.articles
      = incrementViews articleId st.articles := by
    simp [trackView, trackViewStart, trackViewResolve, ApiClient.request]
  have hlike : (toggleLike articleId (.response true status (.ok ())) st).state.articles
      = incrementLikes articleId st.articles := by
    simp [toggleLike, toggleLikeStart, toggleLikeResolve, ApiClient.request]
  refine ⟨?_, ?_, by rw [hview]; simp [incrementViews], by rw [hlike]; simp [incrementLikes],
    rfl, rfl⟩
  · intro i a ha
    rw [hview]
    by_cases hid : a.id = articleId
    · exact ⟨{ a with viewCount := a.viewCount + 1 },
        by simp [incrementViews, List.getElem?_map, ha, hid], fun _ => ⟨rfl, rfl, rfl⟩,
        fun h => absurd hid h⟩
    · exact ⟨a, by simp [incrementViews, List.getElem?_map, ha, hid],
        fun h => absurd h hid, fun _ => rfl⟩
  · intro i a ha
    rw [hlike]
    by_cases hid : a.id = articleId
    · exact ⟨{ a with likeCount := a.likeCount + 1 },
        by simp [incrementLikes, List.getElem?_map, ha, hid], fun _ => ⟨rfl, rfl, rfl⟩,
        fun h => absurd hid h⟩
    · exact ⟨a, by simp [incrementLikes, List.getElem?_map, ha, hid],
        fun h => absurd h hid, fun _ => rfl⟩

/-- C13: when the backend request of `trackView` or `toggleLike` fails, the
handler resolves (the exception is not propagated) and the provider's `error`
and `loading` are what they were before the call. -/
theorem tracking_failure_not_surfaced (st : NewsState) (articleId : String)
    (http : FetchResult Unit)
    (hfail : (∃ message, http = .networkError message) ∨
      (∃ status json, http = .response false status json)) :
    (trackView articleId http st).result = .ok () ∧
      (trackView articleId http st).state.error = st.error ∧
      (trackView articleId http st).state.loading = st.loading ∧
      (toggleLike articleId http st).result = .ok () ∧
      (toggleLike articleId http st).state.error = st.error ∧
      (toggleLike articleId http st).state.loading = st.loading := by
  obtain ⟨e, he⟩ := request_error_of_failed http hfail
  rw [trackView_of_error articleId http st e he, toggleLike_of_error articleId http st e he]
  exact ⟨rfl, rfl, rfl, rfl, rfl, rfl⟩

theorem tracking_failure_not_surfaced_witness :
    (trackView "a2" (.response false 503 (.ok ())) sampleState).result = .ok () ∧
      (trackView "a2" (.response false 503 (.ok ())) sampleState).state.error
        = sampleState.error ∧
      (trackView "a2" (.response false 503 (.ok ())) sampleState).state.loading
        = sampleState.loading ∧
      (toggleLike "a2" (.response false 503 (.ok ())) sampleState).result = .ok () ∧
      (toggleLike "a2" (.response false 503 (.ok ())) sampleState).state.error
        = sampleState.error ∧
      (toggleLike "a2" (.response false 503 (.ok ())) sampleState).state.loading
        = sampleState.loading :=
  tracking_failure_not_surfaced sampleState "a2" (.response false 503 (.ok ()))
    (Or.inr ⟨503, .ok (), rfl⟩)

/-! ## The frame of the handlers -/

theorem map_frame_of_forall (f : Article → Article) (h : ∀ a, (f a).frame = a.frame)
    (articles : List Article) :
    (articles.map f).map Article.frame = articles.map Article.frame := by
  rw [List.map_map]
  apply List.map_congr_left
  intro a _
  exact h a

theorem markLoading_frame (articleId : String) (articles : List Article) :
    (markLoading articleId articles).map Article.frame = articles.map Article.frame := by
  apply map_frame_of_forall
  intro a
  by_cases h : a.id = articleId <;> simp [h, Article.frame]

theorem storeSummary_frame (articleId : String) (summary : Option String)
    (articles : List Article) :
    (storeSummary articleId summary articles).map Article.frame
      = articles.map Article.frame := by
  apply map_frame_of_forall
  intro a
  by_cases h : a.id = articleId <;> simp [h, Article.frame]

theorem clearLoading_frame (articleId : String) (articles : List Article) :
    (clearLoading articleId articles).map Article.frame = articles.map Article.frame := by
  apply map_frame_of_forall
  intro a
  by_cases h : a.id = articleId <;> simp [h, Article.frame]

theorem incrementViews_frame (articleId : String) (articles : List Article) :
    (incrementViews articleId articles).map Article.frame = articles.map Article.frame := by
  apply map_frame_of_forall
  intro a
  by_cases h : a.id = articleId <;> simp [h, Article.frame]

theorem incrementLikes_frame (articleId : String) (articles : List Article) :
    (incrementLikes articleId articles).map Article.frame = articles.map Article.frame := by
  apply map_frame_of_forall
  intro a
  by_cases h : a.id = articleId <;> simp [h, Article.frame]

theorem generateSummary_frame (articleId : String) (http : FetchResult SummaryResponse)
    (st : NewsState) :
    (generateSummary articleId http st).state.articles.map Article.frame
      = st.articles.map Article.frame := by
  unfold generateSummary generateSummaryStart
  cases st.articles.find? (fun a => a.id == articleId) with
  | none => exact markLoading_frame articleId st.articles
  | some article =>
    simp only [generateSummaryResolve]
    cases ApiClient.request http with
    | ok response =>
      simp only [storeSummary_frame, markLoading_frame]
    | error e =>
      simp only [clearLoading_frame, markLoading_frame]

theorem trackView_frame (articleId : String) (http : FetchResult Unit) (st : NewsState) :
    (trackView articleId http st).state.articles.map Article.frame
      = st.articles.map Article.frame := by
  unfold trackView trackViewStart trackViewResolve
  cases ApiClient.request http with
  | ok u => exact incrementViews_frame articleId st.articles
  | error e => rfl

theorem toggleLike_frame (articleId : String) (http : FetchResult Unit) (st : NewsState) :
    (toggleLike articleId http st).state.articles.map Article.frame
      = st.articles.map Article.frame := by
  unfold toggleLike toggleLikeStart toggleLikeResolve
  cases ApiClient.request http with
  | ok u => exact incrementLikes_frame articleId st.articles
  | error e => rfl

theorem length_and_ids_of_frame (before after : List Article)
    (h : after.map Article.frame = before.map Article.frame) :
    after.length = before.length ∧
      after.map (fun a => a.id) = before.map (fun a => a.id) := by
  constructor
  · simpa using congrArg List.length h
  · have := congrArg (List.map fun x : String × String × Source × String × String × String ×
        String × Option String => x.1) h
    simpa [List.map_map, Function.comp_def, Article.frame] using this

/-- C14: for every article collection, every id and every outcome of the
request, the collection after `generateSummary` (also right after its
synchronous part), after `trackView` and after `toggleLike` has the same length
and the same sequence of ids as before, and position by position the same id,
title, source, originalExcerpt, publishedAt, topic, url and imageUrl: nothing is
deleted and only `summary`, `isLoadingSummary`, `viewCount` and `likeCount` can
differ. -/
theorem handlers_frame (st : NewsState) (articleId : String)
    (summaryHttp : FetchResult SummaryResponse) (trackHttp : FetchResult Unit) :
    ((generateSummary articleId summaryHttp st).state.articles.map Article.frame
        = st.articles.map Article.frame ∧
      (generateSummary articleId summaryHttp st).state.articles.length = st.articles.length ∧
      (generateSummary articleId summaryHttp st).state.articles.map (fun a => a.id)
        = st.articles.map (fun a => a.id)) ∧
    ((generateSummaryStart articleId st).1.articles.map Article.frame
        = st.articles.map Article.frame ∧
      (generateSummaryStart articleId st).1.articles.length = st.articles.length ∧
      (generateSummaryStart articleId st).1.articles.map (fun a => a.id)
        = st.articles.map (fun a => a.id)) ∧
    ((trackView articleId trackHttp st).state.articles.map Article.frame
        = st.articles.map Article.frame ∧
      (trackView articleId trackHttp st).state.articles.length = st.articles.length ∧
      (trackView articleId trackHttp st).state.articles.map (fun a => a.id)
        = st.articles.map (fun a => a.id)) ∧
    ((toggleLike articleId trackHttp st).state.articles.map Article.frame
        = st.articles.map Article.frame ∧
      (toggleLike articleId trackHttp st).state.articles.length = st.articles.length ∧
      (toggleLike articleId trackHttp st).state.articles.map (fun a => a.id)
        = st.articles.map (fun a => a.id)) := by
  have hstart : (generateSummaryStart articleId st).1.articles.map Article.frame
      = st.articles.map Article.frame := by
    rw [generateSummaryStart_articles]
    exact markLoading_frame articleId st.articles
  exact ⟨⟨generateSummary_frame articleId summaryHttp st,
      length_and_ids_of_frame _ _ (generateSummary_frame articleId summaryHttp st)⟩,
    ⟨hstart, length_and_ids_of_frame _ _ hstart⟩,
    ⟨trackView_frame articleId trackHttp st,
      length_and_ids_of_frame _ _ (trackView_frame articleId trackHttp st)⟩,
    ⟨toggleLike_frame articleId trackHttp st,
      length_and_ids_of_frame _ _ (toggleLike_frame articleId trackHttp st)⟩⟩

/-! ## Case-insensitive search -/

theorem includes_empty (haystack : String) : includes haystack "" = true := by
  rw [includes_iff]
  exact List.nil_infix

/-- C15: search matching is case-insensitive over title and excerpt. For a
lower-casing function that sends the empty string to itself: two queries with
the same lower-cased form match the same articles; two articles whose titles
and excerpts have the same lower-cased forms are matched by the same queries;
and an article matches a non-empty query exactly when its lower-cased title or
its lower-cased excerpt contains the lower-cased query as a substring. -/
theorem matchesSearch_case_insensitive (toLowerCase : String → String)
    (hempty : toLowerCase "" = "") :
    (∀ (a : Article) (q q2 : String), toLowerCase q = toLowerCase q2 →
        matchesSearch toLowerCase q a = matchesSearch toLowerCase q2 a) ∧
      (∀ (a a2 : Article) (q : String), toLowerCase a.title = toLowerCase a2.title →
        toLowerCase a.originalExcerpt = toLowerCase a2.originalExcerpt →
        matchesSearch toLowerCase q a = matchesSearch toLowerCase q a2) ∧
      (∀ (a : Article) (q : String), q ≠ "" →
        (matchesSearch toLowerCase q a = true ↔
          (toLowerCase q).data <:+: (toLowerCase a.title).data ∨
          (toLowerCase q).data <:+: (toLowerCase a.originalExcerpt).data)) := by
  have key : ∀ (a : Article) (q : String), matchesSearch toLowerCase q a
      = (includes (toLowerCase a.title) (toLowerCase q) ||
          includes (toLowerCase a.originalExcerpt) (toLowerCase q)) := by
    intro a q
    by_cases hq : q = ""
    · subst hq
      simp [matchesSearch, truthyString, hempty, includes_empty]
    · have hne : (q == "") = false := beq_eq_false_iff_ne.2 hq
      simp [matchesSearch, truthyString, hne]
  refine ⟨?_, ?_, ?_⟩
  · intro a q q2 h
    rw [key, key, h]
  · intro a a2 q ht he
    rw [key, key, ht, he]
  · intro a q hq
    rw [matchesSearch_iff]
    constructor
    · intro h
      exact h.resolve_left hq
    · intro h
      exact Or.inr h

theorem matchesSearch_case_insensitive_witness :
    (∀ (a : Article) (q q2 : String), asciiLower q = asciiLower q2 →
        matchesSearch asciiLower q a = matchesSearch asciiLower q2 a) ∧
      (∀ (a a2 : Article) (q : String), asciiLower a.title = asciiLower a2.title →
        asciiLower a.originalExcerpt = asciiLower a2.originalExcerpt →
        matchesSearch asciiLower q a = matchesSearch asciiLower q a2) ∧
      (∀ (a : Article) (q : String), q ≠ "" →
        (matchesSearch asciiLower q a = true ↔
          (asciiLower q).data <:+: (asciiLower a.title).data ∨
          (asciiLower q).data <:+: (asciiLower a.originalExcerpt).data)) :=
  matchesSearch_case_insensitive asciiLower rfl

/-! ## The query of the articles request -/

theorem queryParams_fetchFilters (st : NewsState) :
    ApiClient.queryParams (fetchFilters st) =
      (if st.selectedRegion ≠ "" then [("region", st.selectedRegion)] else []) ++
      (if st.selectedTopic ≠ "All" ∧ st.selectedTopic ≠ "" then
        [("topic", st.selectedTopic)] else []) ++
      (if st.selectedSource ≠ "All" ∧ st.selectedSource ≠ "" then
        [("source", st.selectedSource)] else []) ++
      (if st.dateRange ≠ "" then [("date_range", st.dateRange)] else []) ++
      (if st.searchQuery ≠ "" then [("search_query", st.searchQuery)] else []) ++
      [("limit", "20"), ("page", "1")] := by
  have h20 : toString (20 : Nat) = "20" := by decide
  have h1 : toString (1 : Nat) = "1" := by decide
  by_cases hr : st.selectedRegion = "" <;> by_cases ht : st.selectedTopic = "All" <;>
    by_cases ht2 : st.selectedTopic = "" <;> by_cases hs : st.selectedSource = "All" <;>
    by_cases hs2 : st.selectedSource = "" <;> by_cases hd : st.dateRange = "" <;>
    by_cases hq : st.searchQuery = "" <;>
    simp [ApiClient.queryParams, fetchFilters, FilterValue.kept, FilterValue.toParam,
      truthyString, List.filter_cons, hr, ht, ht2, hs, hs2, hd, hq, h20, h1]

theorem generateSummaryStart_state (articleId : String) (st : NewsState) :
    (generateSummaryStart articleId st).1
      = { st with articles := markLoading articleId st.articles } := by
  unfold generateSummaryStart
  cases st.articles.find? (fun a => a.id == articleId) <;> rfl

theorem toggleSummaryView_state (articleId : String) (st : NewsState) :
    (toggleSummaryView articleId st).1 = st ∨
      (toggleSummaryView articleId st).1
        = { st with articles := markLoading articleId st.articles } := by
  unfold toggleSummaryView
  cases st.articles.find? (fun a => a.id == articleId) with
  | none => exact Or.inl rfl
  | some article =>
    by_cases h : (!truthy article.summary && !article.isLoadingSummary) = true
    · simp only [if_pos h]
      exact Or.inr (generateSummaryStart_state articleId st)
    · simp only [if_neg h]
      exact Or.inl trivial

/-- In every state the provider reaches under the components, each of the four
selections is one of the values its control offers. -/
theorem reached_selections (st : NewsState) (h : Reached st) :
    st.selectedRegion ∈ regions ∧ st.selectedTopic ∈ topics ∧
      st.selectedSource ∈ sources ∧ st.dateRange ∈ dateRanges := by
  induction h with
  | init => decide
  | step op st hop _ ih =>
    obtain ⟨hr, ht, hs, hd⟩ := ih
    cases op with
    | setSelectedRegion value =>
      exact ⟨by simpa [Op.offered] using hop, ht, hs, hd⟩
    | setSelectedTopic value =>
      exact ⟨hr, by simpa [Op.offered] using hop, hs, hd⟩
    | setSelectedSource value =>
      exact ⟨hr, ht, by simpa [Op.offered] using hop, hd⟩
    | setSearchQuery value => exact ⟨hr, ht, hs, hd⟩
    | setDateRange value =>
      exact ⟨hr, ht, hs, by simpa [Op.offered] using hop⟩
    | fetchArticlesStart => exact ⟨hr, ht, hs, hd⟩
    | fetchArticlesResolve outcome =>
      cases outcome with
      | ok fetched => exact ⟨hr, ht, hs, hd⟩
      | error e => exact ⟨hr, ht, hs, hd⟩
    | generateSummaryStart articleId =>
      show (generateSummaryStart articleId st).1.selectedRegion ∈ regions ∧
        (generateSummaryStart articleId st).1.selectedTopic ∈ topics ∧
        (generateSummaryStart articleId st).1.selectedSource ∈ sources ∧
        (generateSummaryStart articleId st).1.dateRange ∈ dateRanges
      rw [generateSummaryStart_state]
      exact ⟨hr, ht, hs, hd⟩
    | generateSummaryResolve articleId outcome =>
      cases outcome with
      | ok response => exact ⟨hr, ht, hs, hd⟩
      | error e => exact ⟨hr, ht, hs, hd⟩
    | toggleSummaryView articleId =>
      show (toggleSummaryView articleId st).1.selectedRegion ∈ regions ∧
        (toggleSummaryView articleId st).1.selectedTopic ∈ topics ∧
        (toggleSummaryView articleId st).1.selectedSource ∈ sources ∧
        (toggleSummaryView articleId st).1.dateRange ∈ dateRanges
      rcases toggleSummaryView_state articleId st with h | h <;> rw [h] <;>
        exact ⟨hr, ht, hs, hd⟩
    | trackViewResolve articleId outcome =>
      cases outcome with
      | ok u => exact ⟨hr, ht, hs, hd⟩
      | error e => exact ⟨hr, ht, hs, hd⟩
    | toggleLikeResolve articleId outcome =>
      cases outcome with
      | ok u => exact ⟨hr, ht, hs, hd⟩
      | error e => exact ⟨hr, ht, hs, hd⟩

theorem offered_ne_empty :
    (∀ value ∈ regions, value ≠ "") ∧ (∀ value ∈ topics, value ≠ "") ∧
      (∀ value ∈ sources, value ≠ "") ∧ (∀ value ∈ dateRanges, value ≠ "") := by
  decide

theorem searchingState_reached : Reached searchingState :=
  .step _ _ rfl (.step _ _ rfl (.step _ _ rfl (.step _ _ (by decide) .init)))

/-- C19: in every filter state the provider reaches under the header and the
sidebar, the call `fetchArticles` makes is `getArticles(filters)`, a GET to
`/api/news/articles` followed, when the serialised query is non-empty, by `?`
and the query, whose parameters are, in this order: `region` = selectedRegion;
`topic` = selectedTopic iff selectedTopic is not "All"; `source` =
selectedSource iff selectedSource is not "All"; `date_range` = dateRange;
`search_query` = searchQuery iff searchQuery is non-empty; `limit` = 20;
`page` = 1; and no other parameter. -/
theorem fetchArticles_query (st : NewsState) (hreached : Reached st)
    (http : FetchResult (List BackendArticle))
    (serialize : List (String × String) → String) :
    (fetchArticles http st).calls = [.getArticles (fetchFilters st)] ∧
      (fetchArticles http st).calls.map
          (fun call => (ApiClient.requestArgs serialize call).options.httpMethod) = ["GET"] ∧
      (fetchArticles http st).calls.map
          (fun call => (ApiClient.requestArgs serialize call).endpoint)
        = ["/api/news/articles" ++
            (if truthyString (serialize (ApiClient.queryParams (fetchFilters st))) then
              "?" ++ serialize (ApiClient.queryParams (fetchFilters st)) else "")] ∧
      ApiClient.queryParams (fetchFilters st) =
        [("region", st.selectedRegion)] ++
        (if st.selectedTopic ≠ "All" then [("topic", st.selectedTopic)] else []) ++
        (if st.selectedSource ≠ "All" then [("source", st.selectedSource)] else []) ++
        [("date_range", st.dateRange)] ++
        (if st.searchQuery ≠ "" then [("search_query", st.searchQuery)] else []) ++
        [("limit", "20"), ("page", "1")] ∧
      (("region", st.selectedRegion) ∈ ApiClient.queryParams (fetchFilters st) ∧
        ("date_range", st.dateRange) ∈ ApiClient.queryParams (fetchFilters st) ∧
        ("limit", "20") ∈ ApiClient.queryParams (fetchFilters st) ∧
        ("page", "1") ∈ ApiClient.queryParams (fetchFilters st)) ∧
      ("topic" ∈ (ApiClient.queryParams (fetchFilters st)).map Prod.fst
        ↔ st.selectedTopic ≠ "All") ∧
      ("source" ∈ (ApiClient.queryParams (fetchFilters st)).map Prod.fst
        ↔ st.selectedSource ≠ "All") ∧
      ("search_query" ∈ (ApiClient.queryParams (fetchFilters st)).map Prod.fst
        ↔ st.searchQuery ≠ "") := by
  obtain ⟨hr, ht, hs, hd⟩ := reached_selections st hreached
  obtain ⟨er, et, es, ed⟩ := offered_ne_empty
  have hparams : ApiClient.queryParams (fetchFilters st) =
      [("region", st.selectedRegion)] ++
      (if st.selectedTopic ≠ "All" then [("topic", st.selectedTopic)] else []) ++
      (if st.selectedSource ≠ "All" then [("source", st.selectedSource)] else []) ++
      [("date_range", st.dateRange)] ++
      (if st.searchQuery ≠ "" then [("search_query", st.searchQuery)] else []) ++
      [("limit", "20"), ("page", "1")] := by
    rw [queryParams_fetchFilters]
    simp [er _ hr, et _ ht, es _ hs, ed _ hd]
  refine ⟨rfl, rfl, rfl, hparams, ?_, ?_, ?_, ?_⟩
  · rw [hparams]
    simp
  · rw [hparams]
    by_cases h1 : st.selectedTopic = "All" <;> by_cases h2 : st.selectedSource = "All" <;>
      by_cases h3 : st.searchQuery = "" <;> simp [h1, h2, h3]
  · rw [hparams]
    by_cases h1 : st.selectedTopic = "All" <;> by_cases h2 : st.selectedSource = "All" <;>
      by_cases h3 : st.searchQuery = "" <;> simp [h1, h2, h3]
  · rw [hparams]
    by_cases h1 : st.selectedTopic = "All" <;> by_cases h2 : st.selectedSource = "All" <;>
      by_cases h3 : st.searchQuery = "" <;> simp [h1, h2, h3]

theorem fetchArticles_query_witness :
    ((fetchArticles (.response true 200 (.ok [])) searchingState).calls
        = [.getArticles (fetchFilters searchingState)] ∧
      (fetchArticles (.response true 200 (.ok [])) searchingState).calls.map
          (fun call => (ApiClient.requestArgs formUrlEncode call).options.httpMethod)
        = ["GET"] ∧
      (fetchArticles (.response true 200 (.ok [])) searchingState).calls.map
          (fun call => (ApiClient.requestArgs formUrlEncode call).endpoint)
        = ["/api/news/articles" ++
            (if truthyString
                (formUrlEncode (ApiClient.queryParams (fetchFilters searchingState))) then
              "?" ++ formUrlEncode (ApiClient.queryParams (fetchFilters searchingState))
            else "")] ∧
      ApiClient.queryParams (fetchFilters searchingState) =
        [("region", searchingState.selectedRegion)] ++
        (if searchingState.selectedTopic ≠ "All" then
          [("topic", searchingState.selectedTopic)] else []) ++
        (if searchingState.selectedSource ≠ "All" then
          [("source", searchingState.selectedSource)] else []) ++
        [("date_range", searchingState.dateRange)] ++
        (if searchingState.searchQuery ≠ "" then
          [("search_query", searchingState.searchQuery)] else []) ++
        [("limit", "20"), ("page", "1")] ∧
      (("region", searchingState.selectedRegion)
          ∈ ApiClient.queryParams (fetchFilters searchingState) ∧
        ("date_range", searchingState.dateRange)
          ∈ ApiClient.queryParams (fetchFilters searchingState) ∧
        ("limit", "20") ∈ ApiClient.queryParams (fetchFilters searchingState) ∧
        ("page", "1") ∈ ApiClient.queryParams (fetchFilters searchingState)) ∧
      ("topic" ∈ (ApiClient.queryParams (fetchFilters searchingState)).map Prod.fst
        ↔ searchingState.selectedTopic ≠ "All") ∧
      ("source" ∈ (ApiClient.queryParams (fetchFilters searchingState)).map Prod.fst
        ↔ searchingState.selectedSource ≠ "All") ∧
      ("search_query" ∈ (ApiClient.queryParams (fetchFilters searchingState)).map Prod.fst
        ↔ searchingState.searchQuery ≠ "")) ∧
      ApiClient.queryParams (fetchFilters searchingState)
        = [("region", "Global"), ("topic", "Technology"), ("date_range", "Today"),
            ("search_query", "ai"), ("limit", "20"), ("page", "1")] ∧
      (fetchArticles (.response true 200 (.ok [])) searchingState).calls.map
          (fun call => (ApiClient.requestArgs formUrlEncode call).endpoint)
        = ["/api/news/articles?region=Global&topic=Technology&date_range=Today" ++
            "&search_query=ai&limit=20&page=1"] :=
  ⟨fetchArticles_query searchingState searchingState_reached (.response true 200 (.ok []))
      formUrlEncode,
    by decide, by decide⟩

/-! ## Error handling end to end -/

theorem generateSummaryStart_error (articleId : String) (st : NewsState) :
    (generateSummaryStart articleId st).1.error = st.error := by
  unfold generateSummaryStart
  cases st.articles.find? (fun a => a.id == articleId) <;> rfl

theorem toggleSummaryView_error (articleId : String) (st : NewsState) :
    (toggleSummaryView articleId st).1.error = st.error := by
  unfold toggleSummaryView
  cases st.articles.find? (fun a => a.id == articleId) with
  | none => rfl
  | some article =>
    by_cases h : (!truthy article.summary && !article.isLoadingSummary) = true
    · simp only [if_pos h]
      exact generateSummaryStart_error articleId st
    · simp only [if_neg h]

/-- The only values `error` takes: `null` and the text set by `fetchArticles`. -/
theorem reachable_error (st : NewsState) (h : Reachable st) :
    st.error = none ∨ st.error = some fetchErrorMessage := by
  induction h with
  | init => exact Or.inl rfl
  | step op st _ ih =>
    cases op with
    | setSelectedRegion value => exact ih
    | setSelectedTopic value => exact ih
    | setSelectedSource value => exact ih
    | setSearchQuery value => exact ih
    | setDateRange value => exact ih
    | fetchArticlesStart => exact Or.inl rfl
    | fetchArticlesResolve outcome =>
      cases outcome with
      | ok fetched => exact ih
      | error e => exact Or.inr rfl
    | generateSummaryStart articleId =>
      show (generateSummaryStart articleId st).1.error = none ∨
        (generateSummaryStart articleId st).1.error = some fetchErrorMessage
      rw [generateSummaryStart_error]
      exact ih
    | generateSummaryResolve articleId outcome =>
      cases outcome with
      | ok response => exact ih
      | error e => exact ih
    | toggleSummaryView articleId =>
      show (toggleSummaryView articleId st).1.error = none ∨
        (toggleSummaryView articleId st).1.error = some fetchErrorMessage
      rw [toggleSummaryView_error]
      exact ih
    | trackViewResolve articleId outcome =>
      cases outcome with
      | ok u => exact ih
      | error e => exact ih
    | toggleLikeResolve articleId outcome =>
      cases outcome with
      | ok u => exact ih
      | error e => exact ih

/-- C20: for every non-OK status returned for the articles request,
`apiClient.request` throws `HTTP error! status: <status>`; `fetchArticles` turns
it into a non-null `error` with `loading` false, keeping the articles; `NewsFeed`
then shows the "Something went wrong" view with the error message and a
"Try Again" button bound to `refetchArticles`; and so it does in every state of
the provider with `loading` false and `error` non-null, whatever articles are
held. -/
theorem api_errors_handled (toLowerCase : String → String) (st : NewsState) (status : Nat)
    (json : Except String (List BackendArticle)) :
    ApiClient.request (.response false status json)
        = .error ("HTTP error! status: " ++ toString status) ∧
      (fetchArticles (.response false status json) st).state.error
        = some "Failed to load articles. Please try again." ∧
      (fetchArticles (.response false status json) st).state.loading = false ∧
      (fetchArticles (.response false status json) st).state.articles = st.articles ∧
      NewsFeed toLowerCase (fetchArticles (.response false status json) st).state
        = .error "Oops! Something went wrong" "Failed to load articles. Please try again."
            "Try Again" fetchArticlesStart ∧
      (∀ st2 : NewsState, Reachable st2 → st2.loading = false → st2.error ≠ none →
        ∃ message, st2.error = some message ∧
          NewsFeed toLowerCase st2
            = .error "Oops! Something went wrong" message "Try Again" fetchArticlesStart) := by
  refine ⟨rfl, rfl, rfl, rfl, ?_, ?_⟩
  · simp [NewsFeed, fetchArticles, fetchArticlesStart, fetchArticlesResolve, ApiClient.request,
      fetchErrorMessage, truthy, truthyString]
  · intro st2 hreach hload herr
    rcases reachable_error st2 hreach with h | h
    · exact absurd h herr
    · refine ⟨fetchErrorMessage, h, ?_⟩
      have htruthy : truthy (some fetchErrorMessage) = true := by decide
      simp [NewsFeed, hload, h, htruthy]

/-! ## Lemmas on the effects -/

theorem searchFetches_append (xs ys : List Issued) :
    searchFetches (xs ++ ys) = searchFetches xs ++ searchFetches ys := by
  simp [searchFetches]

theorem timeout_clock (t : Timer) (p : Provider) :
    (p.timeout t).1.timers = p.timers ∧ (p.timeout t).1.now = p.now ∧
      (p.timeout t).1.timeoutId = p.timeoutId ∧
      (p.timeout t).1.nextTimeoutId = p.nextTimeoutId := by
  unfold Provider.timeout
  split <;> exact ⟨rfl, rfl, rfl, rfl⟩

theorem timeout_length_le (t : Timer) (p : Provider) : (p.timeout t).2.length ≤ 1 := by
  unfold Provider.timeout
  split <;> simp

theorem runTimeouts_clock (ts : List Timer) (p : Provider) :
    (Provider.runTimeouts ts p).1.timers = p.timers ∧
      (Provider.runTimeouts ts p).1.now = p.now ∧
      (Provider.runTimeouts ts p).1.timeoutId = p.timeoutId ∧
      (Provider.runTimeouts ts p).1.nextTimeoutId = p.nextTimeoutId := by
  induction ts generalizing p with
  | nil => exact ⟨rfl, rfl, rfl, rfl⟩
  | cons t ts ih =>
    obtain ⟨h1, h2, h3, h4⟩ := ih (p.timeout t).1
    obtain ⟨g1, g2, g3, g4⟩ := timeout_clock t p
    simp only [Provider.runTimeouts]
    exact ⟨h1.trans g1, h2.trans g2, h3.trans g3, h4.trans g4⟩

theorem runTimeouts_length_le (ts : List Timer) (p : Provider) :
    (Provider.runTimeouts ts p).2.length ≤ ts.length := by
  induction ts generalizing p with
  | nil => simp [Provider.runTimeouts]
  | cons t ts ih =>
    simp only [Provider.runTimeouts, List.length_append, List.length_cons]
    have h1 := timeout_length_le t p
    have h2 := ih (p.timeout t).1
    omega

theorem searchFetches_length_le (xs : List Issued) : (searchFetches xs).length ≤ xs.length :=
  List.length_filter_le _ _

theorem elapse_clock (ms : Nat) (p : Provider) :
    (p.elapse ms).1.timers = p.timers.filter (fun t => !decide (t.due ≤ p.now + ms)) ∧
      (p.elapse ms).1.now = p.now + ms ∧
      (p.elapse ms).1.timeoutId = p.timeoutId ∧
      (p.elapse ms).1.nextTimeoutId = p.nextTimeoutId := by
  unfold Provider.elapse
  exact runTimeouts_clock _ _

theorem filter_due_length (timers : List Timer) (now : Nat) :
    (timers.filter fun t => decide (t.due ≤ now)).length +
      (timers.filter fun t => !decide (t.due ≤ now)).length = timers.length := by
  induction timers with
  | nil => rfl
  | cons t ts ih =>
    by_cases h : t.due ≤ now <;> simp [List.filter_cons, h] <;> omega

theorem respond_clock (requestId : Nat) (http : FetchResult (List BackendArticle))
    (p : Provider) :
    (p.respond requestId http).timers = p.timers ∧ (p.respond requestId http).now = p.now ∧
      (p.respond requestId http).timeoutId = p.timeoutId ∧
      (p.respond requestId http).nextTimeoutId = p.nextTimeoutId := by
  unfold Provider.respond
  split <;> exact ⟨rfl, rfl, rfl, rfl⟩

/-- A setter that leaves `searchQuery` alone touches no timeout and makes no
call from the search effect. -/
theorem setState_keepsSearch (new : NewsState) (p : Provider)
    (h : new.searchQuery = p.st.searchQuery) :
    ((p.setState new).1.timers = p.timers ∧ (p.setState new).1.now = p.now ∧
      (p.setState new).1.timeoutId = p.timeoutId ∧
      (p.setState new).1.nextTimeoutId = p.nextTimeoutId) ∧
      searchFetches (p.setState new).2 = [] := by
  simp only [Provider.setState, Provider.render, h, bne_self_eq_false, Bool.false_eq_true,
    if_false]
  split <;> exact ⟨⟨rfl, rfl, rfl, rfl⟩, rfl⟩

/-- A change of one of the four filter dependencies runs the filter effect only. -/
theorem setState_filters (new : NewsState) (p : Provider)
    (hsearch : new.searchQuery = p.st.searchQuery)
    (hdeps : (new.selectedRegion != p.st.selectedRegion ||
      new.selectedTopic != p.st.selectedTopic ||
      new.selectedSource != p.st.selectedSource ||
      new.dateRange != p.st.dateRange) = true) :
    (p.setState new).2 = [⟨.filterEffect, .getArticles (fetchFilters new)⟩] := by
  simp only [Provider.setState, Provider.render, hsearch, bne_self_eq_false,
    Bool.false_eq_true, if_false, hdeps, if_true]
  rfl

/-- A change of `searchQuery`: the cleanup clears the timeout it holds, a new one
is set, no call is made. -/
theorem setState_search (value : String) (p : Provider) (h : value ≠ p.st.searchQuery) :
    p.setState { p.st with searchQuery := value }
      = ({ p with
            st := { p.st with searchQuery := value }
            timers := p.searchCleanup.timers ++
              [⟨p.nextTimeoutId, p.now + debounceMs, { p.st with searchQuery := value }⟩]
            nextTimeoutId := p.nextTimeoutId + 1
            timeoutId := some p.nextTimeoutId }, []) := by
  have hne : (value != p.st.searchQuery) = true := by simpa using h
  simp only [Provider.setState, Provider.render, bne_self_eq_false, Bool.or_self,
    Bool.false_eq_true, if_false, hne, if_true]
  unfold Provider.searchEffect Provider.searchCleanup
  cases p.timeoutId <;> rfl

theorem setState_same (p : Provider) : p.setState p.st = (p, []) := by
  simp [Provider.setState, Provider.render]

theorem searchCleanup_timers_of_WF (p : Provider) (h : p.WF) : p.searchCleanup.timers = [] := by
  obtain ⟨hlen, hid⟩ := h
  unfold Provider.searchCleanup
  cases htid : p.timeoutId with
  | none =>
    cases hts : p.timers with
    | nil => rfl
    | cons t ts =>
      have := hid t (by rw [hts]; exact List.mem_cons_self _ _)
      rw [htid] at this
      exact absurd this (by simp)
  | some tid =>
    show clearTimeout tid p.timers = []
    unfold clearTimeout
    rw [List.filter_eq_nil_iff]
    intro t ht
    have := hid t ht
    rw [htid] at this
    simp only [Option.some.injEq] at this
    simp [this]

theorem mount_WF : Provider.mount.WF := by
  refine ⟨by decide, ?_⟩
  intro t ht
  have : t = ⟨0, 500, initialState⟩ := by
    simpa [Provider.mount, Provider.searchEffect, Provider.filterEffect,
      Provider.callFetchArticles, debounceMs] using ht
  rw [this]
  rfl

theorem setSearchQuery_WF (value : String) (p : Provider) (h : p.WF) :
    (p.setState { p.st with searchQuery := value }).1.WF := by
  by_cases hv : value = p.st.searchQuery
  · have : ({ p.st with searchQuery := value } : NewsState) = p.st := by rw [hv]
    rw [this, setState_same]
    exact h
  · rw [setState_search value p hv, searchCleanup_timers_of_WF p h]
    refine ⟨by simp, ?_⟩
    intro t ht
    simp only [List.nil_append, List.mem_singleton] at ht
    rw [ht]

theorem WF_of_clock (p q : Provider) (h : p.WF) (ht : q.timers = p.timers)
    (hid : q.timeoutId = p.timeoutId) : q.WF := by
  unfold Provider.WF
  rw [ht, hid]
  exact h

theorem step_WF (event : Event) (p : Provider) (h : p.WF) : (p.step event).1.WF := by
  cases event with
  | setSelectedRegion value =>
    obtain ⟨⟨h1, _, h3, _⟩, _⟩ :=
      setState_keepsSearch { p.st with selectedRegion := value } p rfl
    exact WF_of_clock p _ h h1 h3
  | setSelectedTopic value =>
    obtain ⟨⟨h1, _, h3, _⟩, _⟩ :=
      setState_keepsSearch { p.st with selectedTopic := value } p rfl
    exact WF_of_clock p _ h h1 h3
  | setSelectedSource value =>
    obtain ⟨⟨h1, _, h3, _⟩, _⟩ :=
      setState_keepsSearch { p.st with selectedSource := value } p rfl
    exact WF_of_clock p _ h h1 h3
  | setSearchQuery value => exact setSearchQuery_WF value p h
  | setDateRange value =>
    obtain ⟨⟨h1, _, h3, _⟩, _⟩ :=
      setState_keepsSearch { p.st with dateRange := value } p rfl
    exact WF_of_clock p _ h h1 h3
  | elapse ms =>
    obtain ⟨h1, _, h3, _⟩ := elapse_clock ms p
    show (p.elapse ms).1.WF
    unfold Provider.WF
    rw [h1, h3]
    refine ⟨le_trans (List.length_filter_le _ _) h.1, ?_⟩
    intro t ht
    exact h.2 t (List.mem_of_mem_filter ht)
  | respond requestId http =>
    obtain ⟨h1, _, h3, _⟩ := respond_clock requestId http p
    exact WF_of_clock p _ h h1 h3

theorem run_WF (events : List Event) (p : Provider) (h : p.WF) :
    (Provider.run events p).1.WF := by
  induction events generalizing p with
  | nil => exact h
  | cons e es ih => exact ih _ (step_WF e p h)

theorem after_WF (history : List Event) : (Provider.after history).WF :=
  run_WF history _ mount_WF

theorem run_append (xs ys : List Event) (p : Provider) :
    Provider.run (xs ++ ys) p
      = ((Provider.run ys (Provider.run xs p).1).1,
          (Provider.run xs p).2 ++ (Provider.run ys (Provider.run xs p).1).2) := by
  induction xs generalizing p with
  | nil => simp [Provider.run]
  | cons x xs ih => simp [Provider.run, ih, List.append_assoc]

/-- An event other than a search change never adds a timeout, and every call it
makes from the search effect uses one up. -/
theorem step_potential (event : Event) (p : Provider) (h : event.keepsSearch = true) :
    (searchFetches (p.step event).2).length + (p.step event).1.timers.length
      ≤ p.timers.length := by
  cases event with
  | setSelectedRegion value =>
    obtain ⟨⟨h1, _, _, _⟩, h5⟩ :=
      setState_keepsSearch { p.st with selectedRegion := value } p rfl
    simp only [Provider.step, h1, h5, List.length_nil, Nat.zero_add, le_refl]
  | setSelectedTopic value =>
    obtain ⟨⟨h1, _, _, _⟩, h5⟩ :=
      setState_keepsSearch { p.st with selectedTopic := value } p rfl
    simp only [Provider.step, h1, h5, List.length_nil, Nat.zero_add, le_refl]
  | setSelectedSource value =>
    obtain ⟨⟨h1, _, _, _⟩, h5⟩ :=
      setState_keepsSearch { p.st with selectedSource := value } p rfl
    simp only [Provider.step, h1, h5, List.length_nil, Nat.zero_add, le_refl]
  | setSearchQuery value => simp [Event.keepsSearch] at h
  | setDateRange value =>
    obtain ⟨⟨h1, _, _, _⟩, h5⟩ :=
      setState_keepsSearch { p.st with dateRange := value } p rfl
    simp only [Provider.step, h1, h5, List.length_nil, Nat.zero_add, le_refl]
  | elapse ms =>
    obtain ⟨h1, _, _, _⟩ := elapse_clock ms p
    have hcalls : (searchFetches (p.elapse ms).2).length
        ≤ (p.timers.filter fun t => decide (t.due ≤ p.now + ms)).length :=
      le_trans (searchFetches_length_le _) (runTimeouts_length_le _ _)
    have hsum := filter_due_length p.timers (p.now + ms)
    show (searchFetches (p.elapse ms).2).length + (p.elapse ms).1.timers.length ≤ _
    rw [h1]
    omega
  | respond requestId http =>
    obtain ⟨h1, _, _, _⟩ := respond_clock requestId http p
    simp only [Provider.step, h1, searchFetches, List.filter_nil, List.length_nil,
      Nat.zero_add, le_refl]

theorem run_potential (events : List Event) (p : Provider)
    (h : ∀ e ∈ events, e.keepsSearch = true) :
    (searchFetches (Provider.run events p).2).length + (Provider.run events p).1.timers.length
      ≤ p.timers.length := by
  induction events generalizing p with
  | nil => simp [Provider.run, searchFetches]
  | cons e es ih =>
    have h1 := step_potential e p (h e (List.mem_cons_self _ _))
    have h2 := ih (p.step e).1 (fun x hx => h x (List.mem_cons_of_mem _ hx))
    simp only [Provider.run, searchFetches_append, List.length_append]
    omega

/-- While the one pending timeout is not due and the search is not changed, the
timeout stays pending. -/
theorem step_pending (event : Event) (p : Provider) (t : Timer)
    (h : event.keepsSearch = true) (ht : p.timers = [t])
    (hdue : p.now + elapsed [event] < t.due) :
    (p.step event).1.timers = [t] ∧ (p.step event).1.now = p.now + elapsed [event] := by
  cases event with
  | setSelectedRegion value =>
    obtain ⟨⟨h1, h2, _, _⟩, _⟩ :=
      setState_keepsSearch { p.st with selectedRegion := value } p rfl
    exact ⟨h1.trans ht, h2⟩
  | setSelectedTopic value =>
    obtain ⟨⟨h1, h2, _, _⟩, _⟩ :=
      setState_keepsSearch { p.st with selectedTopic := value } p rfl
    exact ⟨h1.trans ht, h2⟩
  | setSelectedSource value =>
    obtain ⟨⟨h1, h2, _, _⟩, _⟩ :=
      setState_keepsSearch { p.st with selectedSource := value } p rfl
    exact ⟨h1.trans ht, h2⟩
  | setSearchQuery value => simp [Event.keepsSearch] at h
  | setDateRange value =>
    obtain ⟨⟨h1, h2, _, _⟩, _⟩ :=
      setState_keepsSearch { p.st with dateRange := value } p rfl
    exact ⟨h1.trans ht, h2⟩
  | elapse ms =>
    obtain ⟨h1, h2, _, _⟩ := elapse_clock ms p
    simp only [elapsed, Nat.add_zero] at hdue
    refine ⟨?_, by simpa [elapsed] using h2⟩
    show (p.elapse ms).1.timers = [t]
    rw [h1, ht]
    simp [List.filter_cons, Nat.not_le.2 hdue]
  | respond requestId http =>
    obtain ⟨h1, h2, _, _⟩ := respond_clock requestId http p
    exact ⟨h1.trans ht, h2⟩

theorem elapsed_cons (event : Event) (events : List Event) :
    elapsed (event :: events) = elapsed [event] + elapsed events := by
  cases event <;> simp [elapsed]

theorem run_pending (events : List Event) (p : Provider) (t : Timer)
    (h : ∀ e ∈ events, e.keepsSearch = true) (ht : p.timers = [t])
    (hdue : p.now + elapsed events < t.due) :
    (Provider.run events p).1.timers = [t] ∧
      (Provider.run events p).1.now = p.now + elapsed events ∧
      searchFetches (Provider.run events p).2 = [] := by
  have hmain : (Provider.run events p).1.timers = [t] ∧
      (Provider.run events p).1.now = p.now + elapsed events := by
    induction events generalizing p with
    | nil => exact ⟨ht, rfl⟩
    | cons e es ih =>
      rw [elapsed_cons] at hdue
      obtain ⟨h1, h2⟩ := step_pending e p t (h e (List.mem_cons_self _ _)) ht (by omega)
      obtain ⟨h3, h4⟩ := ih (p.step e).1 (fun x hx => h x (List.mem_cons_of_mem _ hx)) h1
        (by rw [h2]; omega)
      refine ⟨h3, ?_⟩
      show (Provider.run es (p.step e).1).1.now = _
      rw [h4, h2, elapsed_cons e es]
      omega
  refine ⟨hmain.1, hmain.2, ?_⟩
  have hpot := run_potential events p h
  rw [hmain.1, ht] at hpot
  simp only [List.length_singleton] at hpot
  exact List.length_eq_zero.1 (by omega)

/-- Once the one pending timeout is due its callback runs: one call with the
filters of its render when that render's query is non-empty, none otherwise. -/
theorem elapse_due (ms : Nat) (p : Provider) (t : Timer) (ht : p.timers = [t])
    (hdue : t.due ≤ p.now + ms) :
    (p.elapse ms).2
      = (if t.closure.searchQuery ≠ "" then
          [⟨.searchEffect, .getArticles (fetchFilters t.closure)⟩] else []) ∧
      (p.elapse ms).1.timers = [] := by
  constructor
  · unfold Provider.elapse
    rw [ht]
    simp only [List.filter_cons, hdue, decide_True, if_true, List.filter_nil,
      Provider.runTimeouts, Provider.timeout]
    by_cases hq : t.closure.searchQuery = ""
    · simp [hq]
    · have hne : (t.closure.searchQuery != "") = true := by simpa using hq
      simp only [hne, if_true, hq, ne_eq, not_false_eq_true, List.append_nil]
      rfl
  · rw [(elapse_clock ms p).1, ht]
    simp [List.filter_cons, hdue]

/-- After a change of the search query in a well-formed provider: no call, and
the one pending timeout is the new one. -/
theorem search_change (value : String) (p : Provider) (hp : p.WF)
    (h : value ≠ p.st.searchQuery) :
    (p.step (.setSearchQuery value)).2 = [] ∧
      (p.step (.setSearchQuery value)).1.timers
        = [⟨p.nextTimeoutId, p.now + 500, { p.st with searchQuery := value }⟩] ∧
      (p.step (.setSearchQuery value)).1.now = p.now := by
  show (p.setState { p.st with searchQuery := value }).2 = [] ∧
    (p.setState { p.st with searchQuery := value }).1.timers = _ ∧
    (p.setState { p.st with searchQuery := value }).1.now = p.now
  rw [setState_search value p h, searchCleanup_timers_of_WF p hp]
  exact ⟨rfl, rfl, rfl⟩

theorem setSearchQuery_calls (value : String) (p : Provider) :
    (p.step (.setSearchQuery value)).2 = [] := by
  show (p.setState { p.st with searchQuery := value }).2 = []
  by_cases hv : value = p.st.searchQuery
  · have : ({ p.st with searchQuery := value } : NewsState) = p.st := by rw [hv]
    rw [this, setState_same]
  · rw [setState_search value p hv]

/-! ## Refetch triggers and the debounce -/

/-- C16, as stated, fails: with the query "ai" in place (typed, then 500 ms
waited), clearing the search box is a change of the query, yet no fetch is made
500 ms later, nor a minute later. -/
theorem cleared_search_triggers_no_fetch :
    (Provider.after [.setSearchQuery "ai", .elapse 500]).st.searchQuery = "ai" ∧
      (Provider.run [.setSearchQuery "", .elapse 500]
        (Provider.after [.setSearchQuery "ai", .elapse 500])).2 = [] ∧
      (Provider.run [.setSearchQuery "", .elapse 60000]
        (Provider.after [.setSearchQuery "ai", .elapse 500])).2 = [] := by
  decide

/-- C16, amended: in every state the provider reaches, a change of region,
topic, source or date range makes one `getArticles` call at once, with the
filters of the new state; a change of the search query makes no call at once;
and after a change of the query, as long as less than 500 ms have passed and the
query is not changed again the search effect makes no call, and at the moment
500 ms have passed it makes exactly one, provided the new query is non-empty,
with the filters of the render of that change. A change to the empty query
makes no call at all. -/
theorem refetch_triggers (p : Provider) (hp : ∃ history, p = Provider.after history)
    (value : String) :
    (value ≠ p.st.selectedRegion →
        (p.step (.setSelectedRegion value)).2
          = [⟨.filterEffect,
              .getArticles (fetchFilters { p.st with selectedRegion := value })⟩]) ∧
      (value ≠ p.st.selectedTopic →
        (p.step (.setSelectedTopic value)).2
          = [⟨.filterEffect,
              .getArticles (fetchFilters { p.st with selectedTopic := value })⟩]) ∧
      (value ≠ p.st.selectedSource →
        (p.step (.setSelectedSource value)).2
          = [⟨.filterEffect,
              .getArticles (fetchFilters { p.st with selectedSource := value })⟩]) ∧
      (value ≠ p.st.dateRange →
        (p.step (.setDateRange value)).2
          = [⟨.filterEffect, .getArticles (fetchFilters { p.st with dateRange := value })⟩]) ∧
      (p.step (.setSearchQuery value)).2 = [] ∧
      (value ≠ p.st.searchQuery → ∀ (mid : List Event) (ms : Nat),
        (∀ e ∈ mid, e.keepsSearch = true) → elapsed mid < 500 → 500 ≤ elapsed mid + ms →
        searchFetches (Provider.run mid (p.step (.setSearchQuery value)).1).2 = [] ∧
          ((Provider.run mid (p.step (.setSearchQuery value)).1).1.step (.elapse ms)).2
            = (if value ≠ "" then
                [⟨.searchEffect,
                  .getArticles (fetchFilters { p.st with searchQuery := value })⟩]
              else [])) := by
  obtain ⟨history, rfl⟩ := hp
  have hwf := after_WF history
  refine ⟨?_, ?_, ?_, ?_, setSearchQuery_calls value _, ?_⟩
  · intro h
    exact setState_filters _ _ rfl (by simp [h])
  · intro h
    exact setState_filters _ _ rfl (by simp [h])
  · intro h
    exact setState_filters _ _ rfl (by simp [h])
  · intro h
    exact setState_filters _ _ rfl (by simp [h])
  · intro h mid ms hmid hlt hge
    obtain ⟨_, htimers, hnow⟩ := search_change value _ hwf h
    obtain ⟨h1, h2, h3⟩ := run_pending mid _ _ hmid htimers (by rw [hnow]; simp only; omega)
    refine ⟨h3, ?_⟩
    exact (elapse_due ms _ _ h1 (by rw [h2, hnow]; simp only; omega)).1

theorem refetch_triggers_witness :
    ("ai" ≠ Provider.mount.st.selectedRegion →
        (Provider.mount.step (.setSelectedRegion "ai")).2
          = [⟨.filterEffect,
              .getArticles (fetchFilters { Provider.mount.st with selectedRegion := "ai" })⟩]) ∧
      ("ai" ≠ Provider.mount.st.selectedTopic →
        (Provider.mount.step (.setSelectedTopic "ai")).2
          = [⟨.filterEffect,
              .getArticles (fetchFilters { Provider.mount.st with selectedTopic := "ai" })⟩]) ∧
      ("ai" ≠ Provider.mount.st.selectedSource →
        (Provider.mount.step (.setSelectedSource "ai")).2
          = [⟨.filterEffect,
              .getArticles (fetchFilters { Provider.mount.st with selectedSource := "ai" })⟩]) ∧
      ("ai" ≠ Provider.mount.st.dateRange →
        (Provider.mount.step (.setDateRange "ai")).2
          = [⟨.filterEffect,
              .getArticles (fetchFilters { Provider.mount.st with dateRange := "ai" })⟩]) ∧
      (Provider.mount.step (.setSearchQuery "ai")).2 = [] ∧
      ("ai" ≠ Provider.mount.st.searchQuery → ∀ (mid : List Event) (ms : Nat),
        (∀ e ∈ mid, e.keepsSearch = true) → elapsed mid < 500 → 500 ≤ elapsed mid + ms →
        searchFetches (Provider.run mid (Provider.mount.step (.setSearchQuery "ai")).1).2 = [] ∧
          ((Provider.run mid (Provider.mount.step (.setSearchQuery "ai")).1).1.step
              (.elapse ms)).2
            = (if "ai" ≠ "" then
                [⟨.searchEffect,
                  .getArticles (fetchFilters { Provider.mount.st with searchQuery := "ai" })⟩]
              else [])) :=
  refetch_triggers Provider.mount ⟨[], rfl⟩ "ai"

/-- C17: in every state the provider reaches at most one timeout is pending; a
change of the search query clears the pending timeout before setting the new
one, which is then the only one; in any stretch of events without a change of
the query the search effect makes at most one fetch; after a change of the
query it makes none while less than 500 ms have passed; so a change followed by
another change less than 500 ms later makes no search-triggered fetch. -/
theorem debounce_bound (p : Provider) (hp : ∃ history, p = Provider.after history) :
    p.timers.length ≤ 1 ∧
      (∀ value : String, value ≠ p.st.searchQuery →
        (p.step (.setSearchQuery value)).1.timers
          = [⟨p.nextTimeoutId, p.now + 500, { p.st with searchQuery := value }⟩]) ∧
      (∀ mid : List Event, (∀ e ∈ mid, e.keepsSearch = true) →
        (searchFetches (Provider.run mid p).2).length ≤ 1) ∧
      (∀ (value : String) (mid : List Event), value ≠ p.st.searchQuery →
        (∀ e ∈ mid, e.keepsSearch = true) → elapsed mid < 500 →
        searchFetches (Provider.run (.setSearchQuery value :: mid) p).2 = []) ∧
      (∀ (value value2 : String) (mid : List Event), value ≠ p.st.searchQuery →
        (∀ e ∈ mid, e.keepsSearch = true) → elapsed mid < 500 →
        searchFetches
          (Provider.run (.setSearchQuery value :: (mid ++ [.setSearchQuery value2])) p).2
            = []) := by
  obtain ⟨history, rfl⟩ := hp
  have hwf := after_WF history
  have quiet : ∀ (value : String) (mid : List Event),
      value ≠ (Provider.after history).st.searchQuery →
      (∀ e ∈ mid, e.keepsSearch = true) → elapsed mid < 500 →
      searchFetches (Provider.run (.setSearchQuery value :: mid) (Provider.after history)).2
        = [] := by
    intro value mid h hmid hlt
    obtain ⟨hcalls, htimers, hnow⟩ := search_change value _ hwf h
    obtain ⟨_, _, h3⟩ := run_pending mid _ _ hmid htimers (by rw [hnow]; simp only; omega)
    simp only [Provider.run, searchFetches_append, hcalls, h3]
    rfl
  refine ⟨hwf.1, ?_, ?_, quiet, ?_⟩
  · intro value h
    exact (search_change value _ hwf h).2.1
  · intro mid hmid
    have := run_potential mid (Provider.after history) hmid
    have := hwf.1
    omega
  · intro value value2 mid h hmid hlt
    have hq := quiet value mid h hmid hlt
    rw [← List.cons_append, run_append, searchFetches_append, hq]
    simp only [Provider.run, List.nil_append, List.append_nil, setSearchQuery_calls]
    rfl

theorem debounce_bound_witness :
    typingProvider.timers.length ≤ 1 ∧
      (∀ value : String, value ≠ typingProvider.st.searchQuery →
        (typingProvider.step (.setSearchQuery value)).1.timers
          = [⟨typingProvider.nextTimeoutId, typingProvider.now + 500,
              { typingProvider.st with searchQuery := value }⟩]) ∧
      (∀ mid : List Event, (∀ e ∈ mid, e.keepsSearch = true) →
        (searchFetches (Provider.run mid typingProvider).2).length ≤ 1) ∧
      (∀ (value : String) (mid : List Event), value ≠ typingProvider.st.searchQuery →
        (∀ e ∈ mid, e.keepsSearch = true) → elapsed mid < 500 →
        searchFetches (Provider.run (.setSearchQuery value :: mid) typingProvider).2 = []) ∧
      (∀ (value value2 : String) (mid : List Event),
        value ≠ typingProvider.st.searchQuery →
        (∀ e ∈ mid, e.keepsSearch = true) → elapsed mid < 500 →
        searchFetches
          (Provider.run (.setSearchQuery value :: (mid ++ [.setSearchQuery value2]))
            typingProvider).2 = []) :=
  debounce_bound typingProvider ⟨[.setSearchQuery "ai", .elapse 200], rfl⟩

/-! ## Responses that arrive out of order -/

/-- C18 does not hold of the code. After a change of region from "Global" to
"US" while the first fetch is in flight, requests 0 (for "Global") and 1 (for
"US") are both pending; when the response to request 1 arrives first and the
response to request 0 last, the collection ends as the result of request 0, the
older fetch, although the region selected is "US". Only when the responses
arrive in order does the result of the most recent fetch stay. -/
theorem stale_response_overwrites :
    (Provider.after [.setSelectedRegion "US"]).inFlight
        = [(0, .getArticles (fetchFilters initialState)),
            (1, .getArticles (fetchFilters { initialState with selectedRegion := "US" }))] ∧
      (Provider.after [.setSelectedRegion "US",
        .respond 1 (.response true 200 (.ok [sampleBackendArticle2])),
        .respond 0 (.response true 200 (.ok [sampleBackendArticle]))]).st.articles
        = [transformArticle sampleBackendArticle] ∧
      (Provider.after [.setSelectedRegion "US",
        .respond 1 (.response true 200 (.ok [sampleBackendArticle2])),
        .respond 0 (.response true 200 (.ok [sampleBackendArticle]))]).st.selectedRegion
        = "US" ∧
      (Provider.after [.setSelectedRegion "US",
        .respond 1 (.response true 200 (.ok [sampleBackendArticle2])),
        .respond 0 (.response true 200 (.ok [sampleBackendArticle]))]).inFlight = [] ∧
      (Provider.after [.setSelectedRegion "US",
        .respond 0 (.response true 200 (.ok [sampleBackendArticle])),
        .respond 1 (.response true 200 (.ok [sampleBackendArticle2]))]).st.articles
        = [transformArticle sampleBackendArticle2] ∧
      transformArticle sampleBackendArticle ≠ transformArticle sampleBackendArticle2 := by
  decide

/-! ## The like button -/

/-- C21 does not hold of the code on the success path. The card of article "a1"
shows 1 like and is not liked. After one click with a successful request the
provider has raised `likeCount` to 2 and the card has set `isLiked`, so the
card shows 3, two more than before; after one click with a failing request it
shows 2, one more than before. A further click on the liked card issues no
request and changes nothing. -/
theorem like_counted_twice :
    displayedLikeCount sampleArticle CardState.initial = 1 ∧
      (handleLike sampleArticle CardState.initial (.response true 200 (.ok ()))
          sampleState).2.state.articles
        = [{ sampleArticle with likeCount := 2 }, sampleArticle2] ∧
      (handleLike sampleArticle CardState.initial (.response true 200 (.ok ()))
          sampleState).2.calls = [.toggleLike "a1"] ∧
      displayedLikeCount { sampleArticle with likeCount := 2 }
          (handleLike sampleArticle CardState.initial (.response true 200 (.ok ()))
            sampleState).1 = 3 ∧
      (handleLike sampleArticle CardState.initial (.networkError "Failed to fetch")
          sampleState).2.state.articles = [sampleArticle, sampleArticle2] ∧
      displayedLikeCount sampleArticle
          (handleLike sampleArticle CardState.initial (.networkError "Failed to fetch")
            sampleState).1 = 2 ∧
      handleLike { sampleArticle with likeCount := 2 }
          { CardState.initial with isLiked := true } (.response true 200 (.ok ()))
          { sampleState with articles := [{ sampleArticle with likeCount := 2 }, sampleArticle2] }
        = ({ CardState.initial with isLiked := true },
            { state :=
                { sampleState with
                  articles := [{ sampleArticle with likeCount := 2 }, sampleArticle2] }
              calls := []
              result := .ok () }) := by
  refine ⟨by decide, by decide, by decide, by decide, by decide, by decide, rfl⟩

/-! ## What the filter reads -/

/-- C22: the client-side filter ignores region and date range. Two filter states
with the same articles that agree on `searchQuery`, `selectedTopic` and
`selectedSource` have the same `filteredArticles`, whatever their
`selectedRegion`, `dateRange`, `loading` and `error`; in particular changing
the region and the date range of a state leaves `filteredArticles` as it is. -/
theorem filteredArticles_ignores_region_and_date (toLowerCase : String → String)
    (st st2 : NewsState) (harticles : st.articles = st2.articles)
    (hquery : st.searchQuery = st2.searchQuery)
    (htopic : st.selectedTopic = st2.selectedTopic)
    (hsource : st.selectedSource = st2.selectedSource) :
    filteredArticles toLowerCase st = filteredArticles toLowerCase st2 ∧
      (∀ region dateRange : String,
        filteredArticles toLowerCase
            { st with selectedRegion := region, dateRange := dateRange }
          = filteredArticles toLowerCase st) := by
  constructor
  · unfold filteredArticles
    rw [harticles, hquery, htopic, hsource]
  · intro region dateRange
    rfl

theorem filteredArticles_ignores_region_and_date_witness :
    filteredArticles asciiLower sampleState
        = filteredArticles asciiLower
            { sampleState with selectedRegion := "US", dateRange := "Last 7 days" } ∧
      (∀ region dateRange : String,
        filteredArticles asciiLower
            { sampleState with selectedRegion := region, dateRange := dateRange }
          = filteredArticles asciiLower sampleState) :=
  filteredArticles_ignores_region_and_date asciiLower sampleState
    { sampleState with selectedRegion := "US", dateRange := "Last 7 days" } rfl rfl rfl rfl

/-! ## The headers of a request -/

/-- C23 does not hold of the code when the caller passes headers. For the
options `{ method: "POST", headers: { Authorization: "Bearer t" } }` the merge
the code builds holds `Content-Type: application/json` and the caller's header,
but the `config` handed to `fetch` carries the caller's headers alone, without
`Content-Type`: the `...options` that follows the `headers` property writes
`options.headers` over the merge. Without a `headers` key in the options the
default header is sent, and `method` and `body` pass through in both cases. -/
theorem caller_headers_replace_default :
    ApiClient.mergedHeaders
        { method := some "POST", body := none, headers := some [("Authorization", "Bearer t")] }
        = [("Content-Type", "application/json"), ("Authorization", "Bearer t")] ∧
      ApiClient.requestConfig
        { method := some "POST", body := none, headers := some [("Authorization", "Bearer t")] }
        = { method := some "POST", body := none,
            headers := some [("Authorization", "Bearer t")] } ∧
      ApiClient.requestConfig { method := some "POST", body := none, headers := none }
        = { method := some "POST", body := none,
            headers := some [("Content-Type", "application/json")] } := by
  decide

/-! ## The query string of `getArticles` -/

theorem kept_iff (value : FilterValue) :
    value.kept = true ↔ value ≠ .null ∧ value ≠ .undefined ∧ value ≠ .str "" := by
  cases value <;> simp [FilterValue.kept]

theorem joinPairs_ne_nil (x : List Char) (xs : List (List Char)) (hx : x ≠ []) :
    joinPairs (x :: xs) ≠ [] := by
  cases xs with
  | nil => simpa [joinPairs] using hx
  | cons y rest => simp [joinPairs, hx]

theorem formUrlEncode_nil : formUrlEncode [] = "" := rfl

theorem formUrlEncode_ne_empty (params : List (String × String)) (h : params ≠ []) :
    formUrlEncode params ≠ "" := by
  cases params with
  | nil => exact absurd rfl h
  | cons entry rest =>
    intro hempty
    have hdata := congrArg String.data hempty
    simp only [formUrlEncode, List.map_cons] at hdata
    exact joinPairs_ne_nil _ _ (by simp) hdata

/-- C24: for every filters object, given by its entries in key order, and for a
serialiser that gives the empty string on no parameter and a non-empty string
otherwise (as `URLSearchParams.toString` does): the parameters appended are
those of exactly the entries whose value is not null, not undefined and not the
empty string, in the order of the entries, so values such as 0 and false are
kept; the endpoint is `/api/news/articles` followed by `?` and the serialised
parameters when a parameter remains, and exactly `/api/news/articles` when none
does. -/
theorem getArticles_endpoint (serialize : List (String × String) → String)
    (hnil : serialize [] = "")
    (hcons : ∀ params : List (String × String), params ≠ [] → serialize params ≠ "")
    (filters : List (String × FilterValue)) :
    ApiClient.queryParams filters
        = (filters.filter fun entry =>
            decide (entry.2 ≠ .null ∧ entry.2 ≠ .undefined ∧ entry.2 ≠ .str "")).map
          (fun entry => (entry.1, entry.2.toParam)) ∧
      List.Sublist ((ApiClient.queryParams filters).map Prod.fst) (filters.map Prod.fst) ∧
      ((FilterValue.num 0).kept = true ∧ (FilterValue.bool false).kept = true ∧
        (FilterValue.num 0).toParam = "0" ∧ (FilterValue.bool false).toParam = "false") ∧
      (ApiClient.queryParams filters ≠ [] →
        (ApiClient.getArticles serialize filters).endpoint
          = "/api/news/articles" ++ ("?" ++ serialize (ApiClient.queryParams filters))) ∧
      (ApiClient.queryParams filters = [] →
        (ApiClient.getArticles serialize filters).endpoint = "/api/news/articles") := by
  have hfilter : (filters.filter fun entry => entry.2.kept)
      = filters.filter fun entry =>
          decide (entry.2 ≠ .null ∧ entry.2 ≠ .undefined ∧ entry.2 ≠ .str "") := by
    apply List.filter_congr
    intro entry _
    by_cases hk : entry.2.kept = true
    · rw [hk]
      exact (decide_eq_true ((kept_iff entry.2).1 hk)).symm
    · have hk2 : entry.2.kept = false := by simpa using hk
      rw [hk2]
      exact (decide_eq_false (fun hc => hk ((kept_iff entry.2).2 hc))).symm
  refine ⟨by rw [ApiClient.queryParams, hfilter], ?_, ⟨rfl, rfl, by decide, rfl⟩, ?_, ?_⟩
  · unfold ApiClient.queryParams
    rw [List.map_map]
    exact (List.filter_sublist _).map Prod.fst
  · intro hne
    have := hcons _ hne
    simp [ApiClient.getArticles, truthyString, this]
  · intro hempty
    simp only [ApiClient.getArticles, hempty, hnil]
    decide

theorem getArticles_endpoint_witness :
    (ApiClient.queryParams sampleFilters
        = (sampleFilters.filter fun entry =>
            decide (entry.2 ≠ .null ∧ entry.2 ≠ .undefined ∧ entry.2 ≠ .str "")).map
          (fun entry => (entry.1, entry.2.toParam)) ∧
      List.Sublist ((ApiClient.queryParams sampleFilters).map Prod.fst)
        (sampleFilters.map Prod.fst) ∧
      ((FilterValue.num 0).kept = true ∧ (FilterValue.bool false).kept = true ∧
        (FilterValue.num 0).toParam = "0" ∧ (FilterValue.bool false).toParam = "false") ∧
      (ApiClient.queryParams sampleFilters ≠ [] →
        (ApiClient.getArticles formUrlEncode sampleFilters).endpoint
          = "/api/news/articles" ++
            ("?" ++ formUrlEncode (ApiClient.queryParams sampleFilters))) ∧
      (ApiClient.queryParams sampleFilters = [] →
        (ApiClient.getArticles formUrlEncode sampleFilters).endpoint
          = "/api/news/articles")) ∧
      (ApiClient.getArticles formUrlEncode sampleFilters).endpoint
        = "/api/news/articles?region=Global&page=0&live=false" ∧
      (ApiClient.getArticles formUrlEncode [("topic", .undefined), ("source", .null)]).endpoint
        = "/api/news/articles" :=
  ⟨getArticles_endpoint formUrlEncode formUrlEncode_nil formUrlEncode_ne_empty sampleFilters,
    by decide, by decide⟩

/-! ## The empty summary -/

/-- C25: an empty-string summary counts as no summary. When the article found
for the id has the empty string as summary, or none, and is not loading,
`toggleSummaryView` starts the summary request in the same way in both cases: it
runs the synchronous part of `generateSummary`, which marks every article of the
id loading and calls the summarize endpoint with the article's title and
excerpt; and the card handler `handleSummaryToggle` of a card not yet showing
the summary makes that call. -/
theorem empty_summary_requested (st : NewsState) (articleId : String) (a : Article)
    (card : CardState)
    (hfind : st.articles.find? (fun a => a.id == articleId) = some a)
    (hsum : a.summary = some "" ∨ a.summary = none)
    (hload : a.isLoadingSummary = false) (hcard : card.showSummary = false) :
    toggleSummaryView articleId st = generateSummaryStart articleId st ∧
      toggleSummaryView articleId st
        = ({ st with articles := markLoading articleId st.articles },
            some (.generateSummary a.title a.originalExcerpt)) ∧
      (∀ b ∈ (toggleSummaryView articleId st).1.articles,
        b.id = articleId → b.isLoadingSummary = true) ∧
      handleSummaryToggle a card st
        = ({ card with showSummary := true },
            { st with articles := markLoading articleId st.articles },
            some (.generateSummary a.title a.originalExcerpt)) := by
  have hfalsy : truthy a.summary = false := by
    rcases hsum with h | h <;> rw [h] <;> rfl
  have hid : a.id = articleId := (find?_some_id st.articles articleId a hfind).2
  have htoggle : toggleSummaryView articleId st = generateSummaryStart articleId st := by
    simp [toggleSummaryView, hfind, hfalsy, hload]
  have hstart := generateSummaryStart_of_find st articleId a hfind
  refine ⟨htoggle, htoggle.trans hstart, ?_, ?_⟩
  · rw [htoggle, hstart]
    intro b hb hbid
    simp only [markLoading, List.mem_map] at hb
    obtain ⟨c, _, rfl⟩ := hb
    by_cases hc : c.id = articleId
    · simp [hc]
    · simp [hc] at hbid
  · simp only [handleSummaryToggle, hcard, hfalsy, hid, htoggle, hstart]
    rfl

theorem empty_summary_requested_witness :
    toggleSummaryView "a3" sampleState3 = generateSummaryStart "a3" sampleState3 ∧
      toggleSummaryView "a3" sampleState3
        = ({ sampleState3 with articles := markLoading "a3" sampleState3.articles },
            some (.generateSummary sampleArticle3.title sampleArticle3.originalExcerpt)) ∧
      (∀ b ∈ (toggleSummaryView "a3" sampleState3).1.articles,
        b.id = "a3" → b.isLoadingSummary = true) ∧
      handleSummaryToggle sampleArticle3 CardState.initial sampleState3
        = ({ CardState.initial with showSummary := true },
            { sampleState3 with articles := markLoading "a3" sampleState3.articles },
            some (.generateSummary sampleArticle3.title sampleArticle3.originalExcerpt)) :=
  empty_summary_requested sampleState3 "a3" sampleArticle3 CardState.initial (by decide)
    (Or.inl rfl) rfl rfl

/-! ## `formatTimeAgo` -/

/-- C26: with `h` the number of milliseconds from the published time to the
current time divided by 3 600 000 and rounded down, `formatTimeAgo` is
"Just now" when `h < 1`, which covers every published time in the future,
`h` followed by "h ago" when `1 ≤ h < 24`, and `h / 24` rounded down followed by
"d ago" when `24 ≤ h`; so one of the three holds, an hour count shown is from 1
to 23 and a day count shown is at least 1. -/
theorem formatTimeAgo_cases (published now : Int) :
    ((now - published) / 3600000 * 3600000 ≤ now - published ∧
        now - published < ((now - published) / 3600000 + 1) * 3600000) ∧
      ((now - published) / 3600000 < 1 → formatTimeAgo published now = "Just now") ∧
      (now < published → formatTimeAgo published now = "Just now") ∧
      (1 ≤ (now - published) / 3600000 → (now - published) / 3600000 < 24 →
        formatTimeAgo published now
          = toString ((now - published) / 3600000) ++ "h ago") ∧
      (24 ≤ (now - published) / 3600000 →
        formatTimeAgo published now
          = toString ((now - published) / 3600000 / 24) ++ "d ago") ∧
      ((formatTimeAgo published now = "Just now" ∧ (now - published) / 3600000 < 1) ∨
        (formatTimeAgo published now = toString ((now - published) / 3600000) ++ "h ago" ∧
          1 ≤ (now - published) / 3600000 ∧ (now - published) / 3600000 ≤ 23) ∨
        (formatTimeAgo published now
            = toString ((now - published) / 3600000 / 24) ++ "d ago" ∧
          24 ≤ (now - published) / 3600000 ∧ 1 ≤ (now - published) / 3600000 / 24)) := by
  have hdef : formatTimeAgo published now
      = if (now - published) / 3600000 < 1 then "Just now"
        else if (now - published) / 3600000 < 24 then
          toString ((now - published) / 3600000) ++ "h ago"
        else toString ((now - published) / 3600000 / 24) ++ "d ago" := rfl
  have hjust : (now - published) / 3600000 < 1 → formatTimeAgo published now = "Just now" := by
    intro h
    rw [hdef, if_pos h]
  have hhours : 1 ≤ (now - published) / 3600000 → (now - published) / 3600000 < 24 →
      formatTimeAgo published now = toString ((now - published) / 3600000) ++ "h ago" := by
    intro h1 h2
    rw [hdef, if_neg (by omega), if_pos h2]
  have hdays : 24 ≤ (now - published) / 3600000 →
      formatTimeAgo published now
        = toString ((now - published) / 3600000 / 24) ++ "d ago" := by
    intro h
    rw [hdef, if_neg (by omega), if_neg (by omega)]
  refine ⟨⟨by omega, by omega⟩, hjust, fun h => hjust (by omega), hhours, hdays, ?_⟩
  by_cases h1 : (now - published) / 3600000 < 1
  · exact Or.inl ⟨hjust h1, h1⟩
  · by_cases h2 : (now - published) / 3600000 < 24
    · exact Or.inr (Or.inl ⟨hhours (by omega) h2, by omega, by omega⟩)
    · exact Or.inr (Or.inr ⟨hdays (by omega), by omega, by omega⟩)

/-! ## The topic counts of the sidebar -/

theorem topicCounts_eq_map (filtered : List Article) :
    topicCounts filtered
      = (topics.drop 1).map fun topic =>
          (topic, (filtered.filter fun article => article.topic == topic).length) := by
  simp [topicCounts, topics, setKey]

theorem lookup_map_key (keys : List String) (f : String → Nat) (key : String)
    (h : key ∈ keys) : (keys.map fun k => (k, f k)).lookup key = some (f key) := by
  induction keys with
  | nil => simp at h
  | cons k ks ih =>
    by_cases hk : key = k
    · subst hk
      simp [List.lookup]
    · have hne : (key == k) = false := beq_eq_false_iff_ne.2 hk
      rcases List.mem_cons.1 h with h1 | h1
      · exact absurd h1 hk
      · simp only [List.map_cons, List.lookup, hne]
        exact ih h1

/-- C27: the sidebar shows the seven named topics, each with the number of
articles of `filteredArticles` that have exactly that topic; so when
`selectedTopic` is one of the named topics, its count is the length of
`filteredArticles` and the count of every other named topic is 0. -/
theorem topicCounts_follow_filter (toLowerCase : String → String) (st : NewsState) :
    topics.drop 1
        = ["World", "Politics", "Technology", "Business", "Science", "Entertainment",
            "Sports"] ∧
      topicCounts (filteredArticles toLowerCase st)
        = (topics.drop 1).map (fun topic =>
            (topic, ((filteredArticles toLowerCase st).filter
              fun article => article.topic == topic).length)) ∧
      (∀ topic ∈ topics.drop 1,
        topicCount (filteredArticles toLowerCase st) topic
          = some ((filteredArticles toLowerCase st).countP
              fun article => article.topic = topic)) ∧
      (∀ topic ∈ topics.drop 1, st.selectedTopic = topic →
        topicCount (filteredArticles toLowerCase st) topic
            = some (filteredArticles toLowerCase st).length ∧
          ∀ other ∈ topics.drop 1, other ≠ topic →
            topicCount (filteredArticles toLowerCase st) other = some 0) := by
  have hcount : ∀ topic ∈ topics.drop 1,
      topicCount (filteredArticles toLowerCase st) topic
        = some ((filteredArticles toLowerCase st).filter
            fun article => article.topic == topic).length := by
    intro topic htopic
    unfold topicCount
    rw [topicCounts_eq_map]
    exact lookup_map_key (topics.drop 1)
      (fun t => ((filteredArticles toLowerCase st).filter
        fun article => article.topic == t).length) topic htopic
  refine ⟨rfl, topicCounts_eq_map _, ?_, ?_⟩
  · intro topic htopic
    rw [hcount topic htopic, List.countP_eq_length_filter]
    congr 2
  · intro topic htopic hsel
    have hnotAll : st.selectedTopic ≠ "All" := by
      rw [hsel]
      intro hall
      rw [hall] at htopic
      revert htopic
      decide
    have hall : ∀ a ∈ filteredArticles toLowerCase st, a.topic = topic := by
      intro a ha
      obtain ⟨_, _, ht, _⟩ := (mem_filteredArticles toLowerCase st a).1 ha
      rw [matchesTopic_iff] at ht
      rw [← hsel]
      exact ht.resolve_left hnotAll
    constructor
    · rw [hcount topic htopic]
      congr 1
      rw [List.filter_eq_self.2]
      intro a ha
      simp [hall a ha]
    · intro other hother hne
      rw [hcount other hother]
      congr 1
      rw [List.length_eq_zero, List.filter_eq_nil_iff]
      intro a ha
      rw [hall a ha]
      simpa using fun h => hne h.symm

end News
